import Mathlib

/-!
cfn-lsp: a verification development.

Shallow embedding of the `cfn-lsp` language server (Rust) and proofs about
its protocol engine: the JSON-RPC envelope model (`src/model.rs`,
`src/model/method/*.rs`), the session state machine (`src/handler.rs`),
the frame reader (`src/reader.rs`), the frame writer (`src/writer.rs`) and
the cfn-lint output parser (`src/method/diagnostic.rs`).

Machine integers (`u32`, `i32`, `usize`) are modelled as `Nat`/`Int` with
explicit range checks where the Rust code performs a fallible conversion.
Rust byte strings are modelled as Lean `String`/`List Char`; all inputs used
in concrete evaluations are ASCII, where byte counts and character counts
agree.
-/

namespace CfnLsp

/-! ## JSON values

Model of `serde_json::Value` as far as the repository exercises it.
Numbers that are plain (optionally signed) integers are stored as `Int`;
a number literal carrying a fraction or exponent is kept as raw text in
`fnum`, which never matches an integral field during decoding — mirroring
serde, where `u32`/`usize` deserialisation from a float fails. -/
inductive Json where
  | null : Json
  | bool (b : Bool) : Json
  | num (n : Int) : Json
  | fnum (raw : String) : Json
  | str (s : String) : Json
  | arr (elems : List Json) : Json
  | obj (fields : List (String × Json)) : Json

namespace Json

/-- Look up the first binding of a key in an object's field list. -/
def lookupField : List (String × Json) → String → Option Json
  | [], _ => none
  | (k, v) :: rest, key => if k = key then some v else lookupField rest key

/-- JSON string escaping as performed by `serde_json` when serialising:
`"` and `\` are escaped, the common control characters get short escapes,
other control characters below 0x20 get a `\u00XX` escape. -/
def escapeChar (c : Char) : String :=
  if c = '"' then "\\\""
  else if c = '\\' then "\\\\"
  else if c = '\n' then "\\n"
  else if c = '\r' then "\\r"
  else if c = '\t' then "\\t"
  else if c = (Char.ofNat 8) then "\\b"
  else if c = (Char.ofNat 12) then "\\f"
  else if c.toNat < 0x20 then
    let hex := Nat.toDigits 16 c.toNat
    let hex := if hex.length = 1 then '0' :: hex else hex
    "\\u00" ++ String.mk hex
  else String.singleton c

def escapeString (s : String) : String :=
  s.data.foldl (fun acc c => acc ++ escapeChar c) ""

mutual
/-- Render a JSON value to text the way `serde_json::to_string` does:
no extra whitespace, object fields in order. -/
def render : Json → String
  | .null => "null"
  | .bool true => "true"
  | .bool false => "false"
  | .num n => toString n
  | .fnum raw => raw
  | .str s => "\"" ++ escapeString s ++ "\""
  | .arr elems => "[" ++ renderList elems ++ "]"
  | .obj fields => "\x7b" ++ renderFields fields ++ "\x7d"

def renderList : List Json → String
  | [] => ""
  | [x] => render x
  | x :: rest => render x ++ "," ++ renderList rest

def renderFields : List (String × Json) → String
  | [] => ""
  | [(k, v)] => "\"" ++ escapeString k ++ "\":" ++ render v
  | (k, v) :: rest =>
      "\"" ++ escapeString k ++ "\":" ++ render v ++ "," ++ renderFields rest
end

end Json

/-! ## Envelope model (`src/model.rs`) -/

/-- Rust `RequestId` (`src/model.rs`): untagged sum over string, `u32` and null.
The decoder enforces the `u32` range. -/
inductive RequestId where
  | str (s : String) : RequestId
  | num (n : Nat) : RequestId
  | null : RequestId
  deriving DecidableEq, Repr

/-- Rust `ErrorCode` (`src/model.rs`). -/
inductive ErrorCode where
  | parseError
  | invalidRequest
  | methodNotFound
  | invalidParams
  | internal
  | serverNotInitialised
  | serverAlreadyInitialised
  deriving DecidableEq, Repr

/-- Rust `ErrorCode::code` (`src/model.rs`): the wire integer for each code. -/
def ErrorCode.code : ErrorCode → Int
  | .parseError => -32700
  | .invalidRequest => -32600
  | .methodNotFound => -32601
  | .invalidParams => -32602
  | .internal => -32603
  | .serverNotInitialised => -32002
  | .serverAlreadyInitialised => -32003

namespace initialise

/-- Rust `ClientInfo` (`src/model/method/initialise.rs`). -/
structure ClientInfo where
  name : String
  version : Option String
  deriving DecidableEq, Repr

/-- Rust `DiagnosticClientCapabilities` (`src/model/method/initialise.rs`). -/
structure DiagnosticClientCapabilities where
  dynamicRegistration : Option Bool
  relatedDocumentSupport : Option Bool
  deriving DecidableEq, Repr

/-- Rust `TextDocumentClientCapabilities` (`src/model/method/initialise.rs`). -/
structure TextDocumentClientCapabilities where
  diagnostic : Option DiagnosticClientCapabilities
  deriving DecidableEq, Repr

/-- Rust `PositionEncoding` (`src/model/method/initialise.rs`): the only variant
is `"utf-16"`. -/
inductive PositionEncoding where
  | utf16
  deriving DecidableEq, Repr

/-- Rust `GeneralClientCapabilities` (`src/model/method/initialise.rs`). -/
structure GeneralClientCapabilities where
  positionEncodings : Option (List PositionEncoding)
  deriving DecidableEq, Repr

/-- Rust `ClientCapabilities` (`src/model/method/initialise.rs`). -/
structure ClientCapabilities where
  textDocument : Option TextDocumentClientCapabilities
  general : Option GeneralClientCapabilities
  deriving DecidableEq, Repr

/-- Rust `TraceValue` (`src/model/method/initialise.rs`), default `Off`. -/
inductive TraceValue where
  | off
  | messages
  | verbose
  deriving DecidableEq, Repr

/-- Rust `WorkspaceFolder` (`src/model/method/initialise.rs`). -/
structure WorkspaceFolder where
  uri : String
  name : String
  deriving DecidableEq, Repr

/-- Rust `initialise::Params` (`src/model/method/initialise.rs`). `processId`
is an `Option<i32>`; the decoder enforces the `i32` range. -/
structure Params where
  processId : Option Int
  clientInfo : Option ClientInfo
  locale : Option String
  initialisationOptions : Option Json
  capabilities : ClientCapabilities
  trace : TraceValue
  workspaceFolders : Option (List WorkspaceFolder)

/-- A minimal valid `initialise::Params` value, used for concrete runs. -/
def Params.minimal : Params :=
  { processId := none
    clientInfo := none
    locale := none
    initialisationOptions := none
    capabilities := { textDocument := none, general := none }
    trace := .off
    workspaceFolders := none }

end initialise

/-- Rust `env!("CARGO_PKG_NAME")`: the crate name, used as server name and
diagnostic-provider identifier. -/
def cargoPkgName : String := "cfn-lsp"

/-- Rust `env!("CARGO_PKG_VERSION")`. The manifest is not part of the analysed
tree; the concrete value is irrelevant to every claim. -/
def cargoPkgVersion : String := "0.1.0"

namespace diagnostic

/-- Rust `Severity` (`src/model/method/diagnostic.rs`), serialised as 1–4. -/
inductive Severity where
  | error
  | warning
  | information
  | hint
  deriving DecidableEq, Repr

/-- Rust `Severity::value` (`src/model/method/diagnostic.rs`). -/
def Severity.value : Severity → Nat
  | .error => 1
  | .warning => 2
  | .information => 3
  | .hint => 4

/-- Rust `Position` (`src/model/method/diagnostic.rs`): `line`/`character` are
`u32`; values flow in from the cfn-lint output parser. -/
structure Position where
  line : Nat
  character : Nat
  deriving DecidableEq, Repr

/-- Rust `Range` (`src/model/method/diagnostic.rs`). -/
structure Range where
  start : Position
  «end» : Position
  deriving DecidableEq, Repr

/-- Rust `Tag` (`src/model/method/diagnostic.rs`), serialised as 1–2. -/
inductive Tag where
  | unnecessary
  | deprecated
  deriving DecidableEq, Repr

def Tag.value : Tag → Nat
  | .unnecessary => 1
  | .deprecated => 2

/-- Rust `CodeDescription` (`src/model/method/diagnostic.rs`). -/
structure CodeDescription where
  href : String
  deriving DecidableEq, Repr

/-- Rust `Location` (`src/model/method/diagnostic.rs`). -/
structure Location where
  uri : String
  range : Range
  deriving DecidableEq, Repr

/-- Rust `RelatedInformation` (`src/model/method/diagnostic.rs`). -/
structure RelatedInformation where
  location : Location
  message : String
  deriving DecidableEq, Repr

/-- Rust `Diagnostic` (`src/model/method/diagnostic.rs`). -/
structure Diagnostic where
  range : Range
  severity : Severity
  code : String
  codeDescription : Option CodeDescription
  source : Option String
  message : String
  tags : List Tag
  relatedInformation : List RelatedInformation
  data : Option Json

namespace pull

/-- Rust `TextDocumentIdentifier` (`src/model/method/diagnostic/pull.rs`). -/
structure TextDocumentIdentifier where
  uri : String
  deriving DecidableEq, Repr

/-- Rust `pull::Params` (`src/model/method/diagnostic/pull.rs`). -/
structure Params where
  textDocument : TextDocumentIdentifier
  identifier : Option String
  previousResultId : Option String
  deriving DecidableEq, Repr

/-- Rust `Params::uri` (`src/model/method/diagnostic/pull.rs`). -/
def Params.uri (p : Params) : String := p.textDocument.uri

/-- Rust `pull::Result` (`src/model/method/diagnostic/pull.rs`): an untagged
sum of a full report and an unchanged report; `kind` is carried by the
variant (`full` / `unchanged` on the wire). -/
inductive Result where
  | full (resultId : String) (items : List Diagnostic) : Result
  | unchanged (resultId : String) : Result

end pull

namespace publish

/-- Rust `publish::Params` (`src/model/method/diagnostic/publish.rs`). -/
structure Params where
  uri : String
  version : Option Nat
  diagnostics : List Diagnostic

end publish

end diagnostic

namespace didOpen

/-- Rust `TextDocumentItem` (`src/model/method/did_open.rs`). -/
structure TextDocumentItem where
  uri : String
  languageId : String
  version : Nat
  text : String
  deriving DecidableEq, Repr

/-- Rust `did_open::Params` (`src/model/method/did_open.rs`). -/
structure Params where
  textDocument : TextDocumentItem
  deriving DecidableEq, Repr

end didOpen

namespace didSave

/-- Rust `did_save::Params` (`src/model/method/did_save.rs`). -/
structure Params where
  textDocument : diagnostic.pull.TextDocumentIdentifier
  deriving DecidableEq, Repr

end didSave

namespace didChange

/-- Rust `VersionedTextDocumentIdentifier` (`src/model/method/did_change.rs`). -/
structure VersionedTextDocumentIdentifier where
  version : Nat
  uri : String
  deriving DecidableEq, Repr

/-- Rust `did_change::Params` (`src/model/method/did_change.rs`). -/
structure Params where
  textDocument : VersionedTextDocumentIdentifier
  deriving DecidableEq, Repr

end didChange

/-- Rust `RequestMethod` (`src/model/method.rs`): tagged by the `method` field,
payload in `params`. -/
inductive RequestMethod where
  | initialise (params : initialise.Params) : RequestMethod
  | shutdown : RequestMethod
  | pullDiagnostics (params : diagnostic.pull.Params) : RequestMethod

/-- Rust `NotificationMethod` (`src/model/method.rs`). -/
inductive NotificationMethod where
  | exit : NotificationMethod
  | initialised : NotificationMethod
  | didChange (params : didChange.Params) : NotificationMethod
  | didClose (params : Json) : NotificationMethod
  | didOpen (params : didOpen.Params) : NotificationMethod
  | didSave (params : didSave.Params) : NotificationMethod
  | publishDiagnostics (params : diagnostic.publish.Params) : NotificationMethod

/-- Rust `Request` (`src/model.rs`): the `jsonrpc: Version` field is the fixed
`"2.0"` witness and carries no information once decoded. -/
structure Request where
  method : RequestMethod
  id : RequestId

/-- Rust `Notification` (`src/model.rs`). -/
structure Notification where
  method : NotificationMethod

/-- Rust `TextDocumentSyncKind` (`src/model/method/initialise.rs`), serialised
as 0/1/2; default `Full`. -/
inductive TextDocumentSyncKind where
  | none
  | full
  | incremental
  deriving DecidableEq, Repr

/-- Rust `TextDocumentSyncKind::value` (`src/model/method/initialise.rs`). -/
def TextDocumentSyncKind.value : TextDocumentSyncKind → Nat
  | .none => 0
  | .full => 1
  | .incremental => 2

/-- Rust `TextDocumentSync` (`src/model/method/initialise.rs`). -/
structure TextDocumentSync where
  openClose : Bool
  change : TextDocumentSyncKind
  deriving DecidableEq, Repr

/-- Rust `DiagnosticOptions` (`src/model/method/initialise.rs`). -/
structure DiagnosticOptions where
  identifier : String
  interFileDependencies : Bool
  workspaceDiagnostics : Bool
  deriving DecidableEq, Repr

/-- Rust `ServerCapabilities` (`src/model/method/initialise.rs`). -/
structure ServerCapabilities where
  positionEncoding : initialise.PositionEncoding
  textDocumentSync : TextDocumentSync
  diagnosticProvider : DiagnosticOptions
  deriving DecidableEq, Repr

/-- Rust `ServerInfo` (`src/model/method/initialise.rs`). -/
structure ServerInfo where
  name : String
  version : String
  deriving DecidableEq, Repr

/-- Rust `initialise::Result` (`src/model/method/initialise.rs`). -/
structure InitialiseResult where
  capabilities : ServerCapabilities
  serverInfo : ServerInfo
  deriving DecidableEq, Repr

/-- Rust `initialise::Result::default()` (`src/model/method/initialise.rs`):
the fixed capabilities-and-server-info payload of every successful
`initialize` response. -/
def InitialiseResult.default : InitialiseResult :=
  { capabilities :=
      { positionEncoding := .utf16
        textDocumentSync := { openClose := true, change := .full }
        diagnosticProvider :=
          { identifier := cargoPkgName
            interFileDependencies := false
            workspaceDiagnostics := false } }
    serverInfo := { name := cargoPkgName, version := cargoPkgVersion } }

/-- Rust `ResponseResult` (`src/model.rs`): untagged. -/
inductive ResponseResult where
  | initialise (r : InitialiseResult) : ResponseResult
  | pullDiagnostics (r : diagnostic.pull.Result) : ResponseResult
  | null : ResponseResult

/-- Rust `Error` (`src/model.rs`). -/
structure ErrorObject where
  code : ErrorCode
  message : String
  data : Option Json

/-- Rust `SuccessResponse` (`src/model.rs`). -/
structure SuccessResponse where
  result : ResponseResult
  id : RequestId

/-- Rust `ErrorResponse` (`src/model.rs`). -/
structure ErrorResponse where
  error : ErrorObject
  id : RequestId

/-- Rust `Response` (`src/model.rs`). -/
inductive Response where
  | success (r : SuccessResponse) : Response
  | error (e : ErrorResponse) : Response
  | batch (rs : List Response) : Response

/-- Rust `Message` (`src/model.rs`): untagged sum tried in declaration order by
the decoder. -/
inductive Message where
  | request (r : Request) : Message
  | batchRequest (rs : List Request) : Message
  | notification (n : Notification) : Message
  | response (r : Response) : Message

end CfnLsp

namespace CfnLsp

/-! ## Session state machine (`src/handler.rs`)

`MessageHandler` owns the lifecycle state and a boxed `Lint` capability.
The capability is modelled as a function argument: `handler.rs` calls
`self.linter.lint(uri)` and matches on `Ok`/`Err`, so the capability is a
function from a URI to a list of diagnostics or a failure description. -/

/-- The Lint capability boundary as consumed by `MessageHandler`
(`src/handler.rs`): `lint(uri) -> Result<Vec<Diagnostic>, error>`. -/
def Linter : Type := String → Except String (List diagnostic.Diagnostic)

/-- Rust `State` (`src/handler.rs`). -/
inductive State where
  | uninitialised : State
  | initialised (params : initialise.Params) : State
  | shutdown : State

/-- Rust `uninitialised_request` (`src/handler.rs`). -/
def uninitialisedRequest (id : RequestId) : Response :=
  .error ⟨⟨.serverNotInitialised, "Server not initialised", none⟩, id⟩

/-- Rust `already_initialised` (`src/handler.rs`). -/
def alreadyInitialised (id : RequestId) : Response :=
  .error ⟨⟨.serverAlreadyInitialised, "Server already initialised", none⟩, id⟩

/-- Rust `request_post_shutdown` (`src/handler.rs`). -/
def requestPostShutdown (id : RequestId) : Response :=
  .error ⟨⟨.invalidRequest, "Server has been shutdown", none⟩, id⟩

/-- Rust `MessageHandler::pull_diagnostics` (`src/handler.rs`): takes `&self`,
so it cannot change the state. -/
def pullDiagnostics (linter : Linter) (id : RequestId)
    (params : diagnostic.pull.Params) : Response :=
  match linter params.uri with
  | .ok diagnostics => .success ⟨.pullDiagnostics (.full "result" diagnostics), id⟩
  | .error _ => .error ⟨⟨.internal, "Failed to generate diagnostics", none⟩, id⟩

/-- Rust `MessageHandler::publish_diagnostics` (`src/handler.rs`): takes `&self`;
a lint failure is dropped (returns `None`). -/
def publishDiagnostics (linter : Linter) (uri : String) (version : Option Nat) :
    Option Notification :=
  match linter uri with
  | .ok diagnostics => some ⟨.publishDiagnostics ⟨uri, version, diagnostics⟩⟩
  | .error _ => none

/-- Rust `MessageHandler::handle_request` (`src/handler.rs`): the `&mut self`
state mutation is made explicit by returning the new state alongside the
response. `initialise` sets `State::Initialised(params)`, `shutdown` sets
`State::Shutdown`; every other branch leaves the state as it was. -/
def handleRequest (linter : Linter) (st : State) (request : Request) :
    Response × State :=
  match st with
  | .uninitialised =>
    match request.method with
    | .initialise params =>
        (.success ⟨.initialise .default, request.id⟩, .initialised params)
    | _ => (uninitialisedRequest request.id, .uninitialised)
  | .shutdown => (requestPostShutdown request.id, .shutdown)
  | .initialised params =>
    match request.method with
    | .shutdown => (.success ⟨.null, request.id⟩, .shutdown)
    | .pullDiagnostics pullParams =>
        (pullDiagnostics linter request.id pullParams, .initialised params)
    | .initialise _ => (alreadyInitialised request.id, .initialised params)

/-- The sequential element-by-element processing inside
`MessageHandler::handle_request_batch` (`src/handler.rs`): `map` with
`&mut self` threads the state from one element to the next. -/
def handleRequests (linter : Linter) : State → List Request →
    List Response × State
  | st, [] => ([], st)
  | st, request :: rest =>
    let first := handleRequest linter st request
    let restResult := handleRequests linter first.2 rest
    (first.1 :: restResult.1, restResult.2)

/-- Rust `MessageHandler::handle_request_batch` (`src/handler.rs`). -/
def handleRequestBatch (linter : Linter) (st : State) (requests : List Request) :
    Response × State :=
  let result := handleRequests linter st requests
  (.batch result.1, result.2)

/-- Result of handling a notification: `MessageHandler::exit` calls
`std::process::exit(0)`, modelled as the `exit` outcome; otherwise the
handler may produce an outbound message. -/
inductive NotifResult where
  | exit : NotifResult
  | reply (message : Option Message) : NotifResult

/-- Rust `MessageHandler::handle_notification` (`src/handler.rs`): takes `&self`,
so the state is never changed. In `Uninitialised` or `Shutdown`, only
`exit` has an effect (process termination); in `Initialised`, `didOpen`
and `didSave` trigger a publish-diagnostics run and every other
notification — `exit` included — is a no-op. -/
def handleNotification (linter : Linter) (st : State) (notification : Notification) :
    NotifResult :=
  match st with
  | .uninitialised | .shutdown =>
    match notification.method with
    | .exit => .exit
    | _ => .reply none
  | .initialised _ =>
    match notification.method with
    | .didOpen params =>
        .reply ((publishDiagnostics linter params.textDocument.uri
          (some params.textDocument.version)).map Message.notification)
    | .didSave params =>
        .reply ((publishDiagnostics linter params.textDocument.uri none).map
          Message.notification)
    | _ => .reply none

/-- Outcome of one `MessageHandler::handle` call: either the process was
terminated (by `exit`), or it continues with an optional outbound message. -/
inductive HandleOutcome where
  | terminated : HandleOutcome
  | next (reply : Option Message) : HandleOutcome

/-- Rust `MessageHandler::handle` (`src/handler.rs`), with the state threaded
explicitly. Notifications never change the state (`handle_notification`
takes `&self`). -/
def handle (linter : Linter) (st : State) : Message → HandleOutcome × State
  | .request r =>
    let result := handleRequest linter st r
    (.next (some (.response result.1)), result.2)
  | .batchRequest rs =>
    let result := handleRequestBatch linter st rs
    (.next (some (.response result.1)), result.2)
  | .notification n =>
    match handleNotification linter st n with
    | .exit => (.terminated, st)
    | .reply m => (.next m, st)
  | .response _ => (.next none, st)

/-- Run the handler over a sequence of messages, as the outer loop in
`src/main.rs` does; processing stops when `exit` terminates the process. -/
def execMessages (linter : Linter) : State → List Message → State
  | st, [] => st
  | st, msg :: rest =>
    match handle linter st msg with
    | (.terminated, st') => st'
    | (.next _, st') => execMessages linter st' rest

/-- Position of a state along the lifecycle
Uninitialised → Initialised → Shutdown. -/
def State.rank : State → Nat
  | .uninitialised => 0
  | .initialised _ => 1
  | .shutdown => 2

/-- The id carried by a non-batch response. -/
def responseId : Response → Option RequestId
  | .success s => some s.id
  | .error e => some e.id
  | .batch _ => none

/-- A concrete always-succeeding linter, for concrete evaluations. -/
def linterEmpty : Linter := fun _ => .ok []

/-- A concrete always-failing linter, for concrete evaluations. -/
def linterFailing : Linter := fun _ => .error "cfn-lint invocation failed"

end CfnLsp

namespace CfnLsp

/-! ## JSON text parsing (`serde_json::from_str`)

A recursive-descent parser over `List Char` with explicit fuel. Top-level
parsing mirrors `serde_json::from_str`: one value, optionally surrounded
by whitespace, and nothing else. -/

namespace Json

def isWs (c : Char) : Bool :=
  c = ' ' || c = '\t' || c = '\n' || c = '\r'

def skipWs : List Char → List Char
  | [] => []
  | c :: rest => if isWs c then skipWs rest else c :: rest

/-- Decode the four hex digits of a `\uXXXX` escape. -/
def hexVal (c : Char) : Option Nat :=
  if '0' ≤ c ∧ c ≤ '9' then some (c.toNat - '0'.toNat)
  else if 'a' ≤ c ∧ c ≤ 'f' then some (c.toNat - 'a'.toNat + 10)
  else if 'A' ≤ c ∧ c ≤ 'F' then some (c.toNat - 'A'.toNat + 10)
  else none

/-- Parse the remainder of a JSON string literal (the opening quote is
already consumed): unescaped control characters are rejected, the
standard escapes are interpreted. -/
def parseStringChars : List Char → Option (List Char × List Char)
  | [] => none
  | '"' :: rest => some ([], rest)
  | '\\' :: e :: rest =>
    (match e with
    | '"' => (parseStringChars rest).map (fun (cs, r) => ('"' :: cs, r))
    | '\\' => (parseStringChars rest).map (fun (cs, r) => ('\\' :: cs, r))
    | '/' => (parseStringChars rest).map (fun (cs, r) => ('/' :: cs, r))
    | 'b' => (parseStringChars rest).map (fun (cs, r) => (Char.ofNat 8 :: cs, r))
    | 'f' => (parseStringChars rest).map (fun (cs, r) => (Char.ofNat 12 :: cs, r))
    | 'n' => (parseStringChars rest).map (fun (cs, r) => ('\n' :: cs, r))
    | 'r' => (parseStringChars rest).map (fun (cs, r) => ('\r' :: cs, r))
    | 't' => (parseStringChars rest).map (fun (cs, r) => ('\t' :: cs, r))
    | 'u' =>
      match rest with
      | h1 :: h2 :: h3 :: h4 :: rest' =>
        match hexVal h1, hexVal h2, hexVal h3, hexVal h4 with
        | some a, some b, some c, some d =>
          (parseStringChars rest').map
            (fun (cs, r) => (Char.ofNat (((a * 16 + b) * 16 + c) * 16 + d) :: cs, r))
        | _, _, _, _ => none
      | _ => none
    | _ => none)
  | c :: rest =>
    if c.toNat < 0x20 then none
    else (parseStringChars rest).map (fun (cs, r) => (c :: cs, r))

/-- Greedily take decimal digits. -/
def takeDigits : List Char → List Char × List Char
  | [] => ([], [])
  | c :: rest =>
    if c.isDigit then
      let (ds, r) := takeDigits rest
      (c :: ds, r)
    else ([], c :: rest)

/-- Numeric value of a list of decimal digits. -/
def natOfDigits (ds : List Char) : Nat :=
  ds.foldl (fun acc c => acc * 10 + (c.toNat - '0'.toNat)) 0

/-- Parse a JSON number. A plain integer becomes `num`; a literal with a
fraction or exponent part is kept as raw text (`fnum`), which no integral
field accepts — as in serde, where `u32: 1.5` fails to deserialise. -/
def parseNumber (s : List Char) : Option (Json × List Char) :=
  let (neg, s₁) := match s with
    | '-' :: rest => (true, rest)
    | _ => (false, s)
  match s₁ with
  | '0' :: rest =>
    if (rest.head?.map Char.isDigit).getD false then none
    else parseNumberTail neg ['0'] rest
  | c :: rest =>
    if c.isDigit then
      let (ds, r) := takeDigits rest
      parseNumberTail neg (c :: ds) r
    else none
  | [] => none
where
  /-- After the integer digits: an optional fraction and exponent. -/
  parseNumberTail (neg : Bool) (intDigits : List Char) (s : List Char) :
      Option (Json × List Char) :=
    let raw (frac expo : List Char) : String :=
      String.mk ((if neg then ['-'] else []) ++ intDigits ++ frac ++ expo)
    match s with
    | '.' :: rest =>
      let (ds, r) := takeDigits rest
      if ds.isEmpty then none
      else
        match r with
        | e :: rest' =>
          if e = 'e' ∨ e = 'E' then
            (parseExponent rest').map (fun (es, r') =>
              (.fnum (raw ('.' :: ds) (e :: es)), r'))
          else some (.fnum (raw ('.' :: ds) []), r)
        | [] => some (.fnum (raw ('.' :: ds) []), [])
    | e :: rest =>
      if e = 'e' ∨ e = 'E' then
        (parseExponent rest).map (fun (es, r') =>
          (.fnum (raw [] (e :: es)), r'))
      else
        let n : Int := natOfDigits intDigits
        some (.num (if neg then -n else n), e :: rest)
    | [] =>
      let n : Int := natOfDigits intDigits
      some (.num (if neg then -n else n), [])
  parseExponent (s : List Char) : Option (List Char × List Char) :=
    let (sign, s₁) := match s with
      | '+' :: rest => (['+'], rest)
      | '-' :: rest => (['-'], rest)
      | _ => ([], s)
    let (ds, r) := takeDigits s₁
    if ds.isEmpty then none else some (sign ++ ds, r)

mutual
def parseValue : Nat → List Char → Option (Json × List Char)
  | 0, _ => none
  | fuel + 1, s =>
    match skipWs s with
    | 'n' :: 'u' :: 'l' :: 'l' :: rest => some (.null, rest)
    | 't' :: 'r' :: 'u' :: 'e' :: rest => some (.bool true, rest)
    | 'f' :: 'a' :: 'l' :: 's' :: 'e' :: rest => some (.bool false, rest)
    | '"' :: rest =>
      (parseStringChars rest).map (fun (cs, r) => (.str (String.mk cs), r))
    | '[' :: rest =>
      (match skipWs rest with
      | ']' :: r => some (.arr [], r)
      | r => (parseElems fuel r).map (fun (vs, r') => (.arr vs, r')))
    | '{' :: rest =>
      (match skipWs rest with
      | '}' :: r => some (.obj [], r)
      | r => (parseMembers fuel r).map (fun (ms, r') => (.obj ms, r')))
    | s' => parseNumber s'

def parseElems : Nat → List Char → Option (List Json × List Char)
  | 0, _ => none
  | fuel + 1, s =>
    match parseValue fuel s with
    | none => none
    | some (v, r) =>
      match skipWs r with
      | ',' :: r₂ =>
        (parseElems fuel r₂).map (fun (vs, r₃) => (v :: vs, r₃))
      | ']' :: r₂ => some ([v], r₂)
      | _ => none

def parseMembers : Nat → List Char → Option (List (String × Json) × List Char)
  | 0, _ => none
  | fuel + 1, s =>
    match skipWs s with
    | '"' :: r =>
      (match parseStringChars r with
      | none => none
      | some (k, r₁) =>
        match skipWs r₁ with
        | ':' :: r₂ =>
          (match parseValue fuel r₂ with
          | none => none
          | some (v, r₃) =>
            match skipWs r₃ with
            | ',' :: r₄ =>
              (parseMembers fuel r₄).map
                (fun (ms, r₅) => ((String.mk k, v) :: ms, r₅))
            | '}' :: r₄ => some ([(String.mk k, v)], r₄)
            | _ => none)
        | _ => none)
    | _ => none
end

/-- Rust `serde_json::from_str` at the JSON-value level: one value, nothing but
whitespace after it. -/
def parse (s : String) : Option Json :=
  match parseValue (2 * s.length + 4) s.data with
  | some (v, rest) => if skipWs rest = [] then some v else none
  | none => none

end Json

end CfnLsp

namespace CfnLsp

/-! ## Message decoding

`serde_json::from_str::<Message>` via the derives on the envelope model:
`Message` is `#[serde(untagged)]` and tries Request, BatchRequest,
Notification, Response in declaration order; `RequestMethod` /
`NotificationMethod` are adjacently tagged (`tag = "method"`,
`content = "params"`). In a `#[serde(flatten)]` context unknown keys are
ignored; plain derived structs also ignore unknown keys. `Option` fields
treat a missing key and an explicit `null` as `None`. -/

/-- Rust `u32` deserialisation from a JSON value. -/
def decodeU32 (j : Json) : Option Nat :=
  match j with
  | .num n => if 0 ≤ n ∧ n < 2 ^ 32 then some n.toNat else none
  | _ => none

/-- Rust `i32` deserialisation from a JSON value. -/
def decodeI32 (j : Json) : Option Int :=
  match j with
  | .num n => if -2 ^ 31 ≤ n ∧ n < 2 ^ 31 then some n else none
  | _ => none

/-- Rust `usize` (64-bit) deserialisation from a JSON value. -/
def decodeUsize (j : Json) : Option Nat :=
  match j with
  | .num n => if 0 ≤ n ∧ n < 2 ^ 64 then some n.toNat else none
  | _ => none

def decodeString (j : Json) : Option String :=
  match j with
  | .str s => some s
  | _ => none

def decodeBool (j : Json) : Option Bool :=
  match j with
  | .bool b => some b
  | _ => none

/-- A required struct field. -/
def reqField (fs : List (String × Json)) (key : String)
    (dec : Json → Option α) : Option α :=
  (Json.lookupField fs key).bind dec

/-- An `Option` struct field: missing or `null` is `None`; a present
non-null value must decode. -/
def optField (fs : List (String × Json)) (key : String)
    (dec : Json → Option α) : Option (Option α) :=
  match Json.lookupField fs key with
  | none => some none
  | some .null => some none
  | some v => (dec v).map some

def decodeList (dec : Json → Option α) : List Json → Option (List α)
  | [] => some []
  | x :: xs =>
    match dec x, decodeList dec xs with
    | some a, some as' => some (a :: as')
    | _, _ => none

/-- Rust `RequestId` (`src/model.rs`), untagged: string, then `u32`, then null. -/
def decodeRequestId (j : Json) : Option RequestId :=
  match j with
  | .str s => some (.str s)
  | .num n => if 0 ≤ n ∧ n < 2 ^ 32 then some (.num n.toNat) else none
  | .null => some .null
  | _ => none

/-- Rust `Version` (`src/model.rs`): only the literal string `"2.0"`. -/
def decodeVersion (j : Json) : Option Unit :=
  match j with
  | .str s => if s = "2.0" then some () else none
  | _ => none

/-- Rust `ClientInfo` (`src/model/method/initialise.rs`). -/
def decodeClientInfo (j : Json) : Option initialise.ClientInfo :=
  match j with
  | .obj fs => do
    let name ← reqField fs "name" decodeString
    let version ← optField fs "version" decodeString
    some ⟨name, version⟩
  | _ => none

/-- Rust `DiagnosticClientCapabilities` (`src/model/method/initialise.rs`). -/
def decodeDiagnosticClientCapabilities (j : Json) :
    Option initialise.DiagnosticClientCapabilities :=
  match j with
  | .obj fs => do
    let dr ← optField fs "dynamicRegistration" decodeBool
    let rds ← optField fs "relatedDocumentSupport" decodeBool
    some ⟨dr, rds⟩
  | _ => none

/-- Rust `TextDocumentClientCapabilities` (`src/model/method/initialise.rs`). -/
def decodeTextDocumentClientCapabilities (j : Json) :
    Option initialise.TextDocumentClientCapabilities :=
  match j with
  | .obj fs => do
    let d ← optField fs "diagnostic" decodeDiagnosticClientCapabilities
    some ⟨d⟩
  | _ => none

/-- Rust `PositionEncoding` (`src/model/method/initialise.rs`): the enum has
only the `"utf-16"` variant, so any other string fails. -/
def decodePositionEncoding (j : Json) : Option initialise.PositionEncoding :=
  match j with
  | .str s => if s = "utf-16" then some .utf16 else none
  | _ => none

/-- Rust `GeneralClientCapabilities` (`src/model/method/initialise.rs`). -/
def decodeGeneralClientCapabilities (j : Json) :
    Option initialise.GeneralClientCapabilities :=
  match j with
  | .obj fs => do
    let pe ← optField fs "positionEncodings" (fun v =>
      match v with
      | .arr xs => decodeList decodePositionEncoding xs
      | _ => none)
    some ⟨pe⟩
  | _ => none

/-- Rust `ClientCapabilities` (`src/model/method/initialise.rs`). -/
def decodeClientCapabilities (j : Json) : Option initialise.ClientCapabilities :=
  match j with
  | .obj fs => do
    let td ← optField fs "textDocument" decodeTextDocumentClientCapabilities
    let g ← optField fs "general" decodeGeneralClientCapabilities
    some ⟨td, g⟩
  | _ => none

/-- Rust `TraceValue` (`src/model/method/initialise.rs`), `rename_all =
"lowercase"`. -/
def decodeTraceValue (j : Json) : Option initialise.TraceValue :=
  match j with
  | .str s =>
    if s = "off" then some .off
    else if s = "messages" then some .messages
    else if s = "verbose" then some .verbose
    else none
  | _ => none

/-- Rust `WorkspaceFolder` (`src/model/method/initialise.rs`). -/
def decodeWorkspaceFolder (j : Json) : Option initialise.WorkspaceFolder :=
  match j with
  | .obj fs => do
    let uri ← reqField fs "uri" decodeString
    let name ← reqField fs "name" decodeString
    some ⟨uri, name⟩
  | _ => none

/-- Rust `initialise::Params` (`src/model/method/initialise.rs`):
`capabilities` is the only required field; `trace` has
`#[serde(default)]`. -/
def decodeInitialiseParams (j : Json) : Option initialise.Params :=
  match j with
  | .obj fs => do
    let pid ← optField fs "processId" decodeI32
    let ci ← optField fs "clientInfo" decodeClientInfo
    let locale ← optField fs "locale" decodeString
    let io ← optField fs "initializationOptions" (fun v => some v)
    let caps ← reqField fs "capabilities" decodeClientCapabilities
    let trace ← match Json.lookupField fs "trace" with
      | none => some initialise.TraceValue.off
      | some v => decodeTraceValue v
    let wf ← optField fs "workspaceFolders" (fun v =>
      match v with
      | .arr xs => decodeList decodeWorkspaceFolder xs
      | _ => none)
    some ⟨pid, ci, locale, io, caps, trace, wf⟩
  | _ => none

/-- Rust `TextDocumentIdentifier` (`src/model/method/diagnostic/pull.rs`,
`src/model/method/did_save.rs`). -/
def decodeTextDocumentIdentifier (j : Json) :
    Option diagnostic.pull.TextDocumentIdentifier :=
  match j with
  | .obj fs => do
    let uri ← reqField fs "uri" decodeString
    some ⟨uri⟩
  | _ => none

/-- Rust `pull::Params` (`src/model/method/diagnostic/pull.rs`). -/
def decodePullParams (j : Json) : Option diagnostic.pull.Params :=
  match j with
  | .obj fs => do
    let td ← reqField fs "textDocument" decodeTextDocumentIdentifier
    let ident ← optField fs "identifier" decodeString
    let prev ← optField fs "previousResultId" decodeString
    some ⟨td, ident, prev⟩
  | _ => none

/-- Rust `TextDocumentItem` (`src/model/method/did_open.rs`). -/
def decodeTextDocumentItem (j : Json) : Option didOpen.TextDocumentItem :=
  match j with
  | .obj fs => do
    let uri ← reqField fs "uri" decodeString
    let lid ← reqField fs "languageId" decodeString
    let version ← reqField fs "version" decodeUsize
    let text ← reqField fs "text" decodeString
    some ⟨uri, lid, version, text⟩
  | _ => none

/-- Rust `did_open::Params` (`src/model/method/did_open.rs`). -/
def decodeDidOpenParams (j : Json) : Option didOpen.Params :=
  match j with
  | .obj fs => do
    let td ← reqField fs "textDocument" decodeTextDocumentItem
    some ⟨td⟩
  | _ => none

/-- Rust `did_save::Params` (`src/model/method/did_save.rs`). -/
def decodeDidSaveParams (j : Json) : Option didSave.Params :=
  match j with
  | .obj fs => do
    let td ← reqField fs "textDocument" decodeTextDocumentIdentifier
    some ⟨td⟩
  | _ => none

/-- Rust `VersionedTextDocumentIdentifier` (`src/model/method/did_change.rs`). -/
def decodeVersionedTextDocumentIdentifier (j : Json) :
    Option didChange.VersionedTextDocumentIdentifier :=
  match j with
  | .obj fs => do
    let version ← reqField fs "version" decodeUsize
    let uri ← reqField fs "uri" decodeString
    some ⟨version, uri⟩
  | _ => none

/-- Rust `did_change::Params` (`src/model/method/did_change.rs`). -/
def decodeDidChangeParams (j : Json) : Option didChange.Params :=
  match j with
  | .obj fs => do
    let td ← reqField fs "textDocument" decodeVersionedTextDocumentIdentifier
    some ⟨td⟩
  | _ => none

/-- Rust `Severity` deserialisation: the inverse of its `serialize_u8`. -/
def decodeSeverity (j : Json) : Option diagnostic.Severity :=
  match j with
  | .num 1 => some .error
  | .num 2 => some .warning
  | .num 3 => some .information
  | .num 4 => some .hint
  | _ => none

def decodeTag (j : Json) : Option diagnostic.Tag :=
  match j with
  | .num 1 => some .unnecessary
  | .num 2 => some .deprecated
  | _ => none

/-- Rust `Position` (`src/model/method/diagnostic.rs`). -/
def decodePosition (j : Json) : Option diagnostic.Position :=
  match j with
  | .obj fs => do
    let line ← reqField fs "line" decodeU32
    let ch ← reqField fs "character" decodeU32
    some ⟨line, ch⟩
  | _ => none

/-- Rust `Range` (`src/model/method/diagnostic.rs`). -/
def decodeRange (j : Json) : Option diagnostic.Range :=
  match j with
  | .obj fs => do
    let s ← reqField fs "start" decodePosition
    let e ← reqField fs "end" decodePosition
    some ⟨s, e⟩
  | _ => none

/-- Rust `CodeDescription` (`src/model/method/diagnostic.rs`). -/
def decodeCodeDescription (j : Json) : Option diagnostic.CodeDescription :=
  match j with
  | .obj fs => do
    let href ← reqField fs "href" decodeString
    some ⟨href⟩
  | _ => none

/-- Rust `Location` (`src/model/method/diagnostic.rs`). -/
def decodeLocation (j : Json) : Option diagnostic.Location :=
  match j with
  | .obj fs => do
    let uri ← reqField fs "uri" decodeString
    let range ← reqField fs "range" decodeRange
    some ⟨uri, range⟩
  | _ => none

/-- Rust `RelatedInformation` (`src/model/method/diagnostic.rs`). -/
def decodeRelatedInformation (j : Json) : Option diagnostic.RelatedInformation :=
  match j with
  | .obj fs => do
    let loc ← reqField fs "location" decodeLocation
    let message ← reqField fs "message" decodeString
    some ⟨loc, message⟩
  | _ => none

/-- Rust `Diagnostic` (`src/model/method/diagnostic.rs`), `rename_all =
"camelCase"`. -/
def decodeDiagnostic (j : Json) : Option diagnostic.Diagnostic :=
  match j with
  | .obj fs => do
    let range ← reqField fs "range" decodeRange
    let severity ← reqField fs "severity" decodeSeverity
    let code ← reqField fs "code" decodeString
    let cd ← optField fs "codeDescription" decodeCodeDescription
    let source ← optField fs "source" decodeString
    let message ← reqField fs "message" decodeString
    let tags ← reqField fs "tags" (fun v =>
      match v with
      | .arr xs => decodeList decodeTag xs
      | _ => none)
    let ri ← reqField fs "relatedInformation" (fun v =>
      match v with
      | .arr xs => decodeList decodeRelatedInformation xs
      | _ => none)
    let data ← optField fs "data" (fun v => some v)
    some ⟨range, severity, code, cd, source, message, tags, ri, data⟩
  | _ => none

/-- Rust `publish::Params` (`src/model/method/diagnostic/publish.rs`). -/
def decodePublishParams (j : Json) : Option diagnostic.publish.Params :=
  match j with
  | .obj fs => do
    let uri ← reqField fs "uri" decodeString
    let version ← optField fs "version" decodeUsize
    let diagnostics ← reqField fs "diagnostics" (fun v =>
      match v with
      | .arr xs => decodeList decodeDiagnostic xs
      | _ => none)
    some ⟨uri, version, diagnostics⟩
  | _ => none

/-- Rust `RequestMethod` (`src/model/method.rs`), adjacently tagged: the
`method` key selects the variant, `params` carries the payload. A unit
variant accepts an absent or null `params`; a payload variant requires a
decodable `params`. An unknown method name fails. -/
def decodeRequestMethod (fs : List (String × Json)) : Option RequestMethod :=
  match Json.lookupField fs "method" with
  | some (.str name) =>
    if name = "initialize" then
      (Json.lookupField fs "params").bind
        (fun v => (decodeInitialiseParams v).map .initialise)
    else if name = "shutdown" then
      match Json.lookupField fs "params" with
      | none => some .shutdown
      | some .null => some .shutdown
      | some _ => none
    else if name = "textDocument/diagnostic" then
      (Json.lookupField fs "params").bind
        (fun v => (decodePullParams v).map .pullDiagnostics)
    else none
  | _ => none

/-- Rust `NotificationMethod` (`src/model/method.rs`), adjacently tagged. -/
def decodeNotificationMethod (fs : List (String × Json)) :
    Option NotificationMethod :=
  match Json.lookupField fs "method" with
  | some (.str name) =>
    if name = "exit" then
      match Json.lookupField fs "params" with
      | none => some .exit
      | some .null => some .exit
      | some _ => none
    else if name = "initialized" then
      match Json.lookupField fs "params" with
      | none => some .initialised
      | some .null => some .initialised
      | some _ => none
    else if name = "textDocument/didChange" then
      (Json.lookupField fs "params").bind
        (fun v => (decodeDidChangeParams v).map .didChange)
    else if name = "textDocument/didClose" then
      match Json.lookupField fs "params" with
      | none => some (.didClose .null)
      | some v => some (.didClose v)
    else if name = "textDocument/didOpen" then
      (Json.lookupField fs "params").bind
        (fun v => (decodeDidOpenParams v).map .didOpen)
    else if name = "textDocument/didSave" then
      (Json.lookupField fs "params").bind
        (fun v => (decodeDidSaveParams v).map .didSave)
    else if name = "textDocument/publishDiagnostics" then
      (Json.lookupField fs "params").bind
        (fun v => (decodePublishParams v).map .publishDiagnostics)
    else none
  | _ => none

/-- Rust `Request` (`src/model.rs`): `jsonrpc` must be `"2.0"`, `id` is
required, the method is flattened. -/
def decodeRequest (j : Json) : Option Request :=
  match j with
  | .obj fs => do
    let _ ← reqField fs "jsonrpc" decodeVersion
    let id ← reqField fs "id" decodeRequestId
    let method ← decodeRequestMethod fs
    some ⟨method, id⟩
  | _ => none

/-- Rust `Notification` (`src/model.rs`). -/
def decodeNotification (j : Json) : Option Notification :=
  match j with
  | .obj fs => do
    let _ ← reqField fs "jsonrpc" decodeVersion
    let method ← decodeNotificationMethod fs
    some ⟨method⟩
  | _ => none

/-- Rust `ErrorCode` (`src/model.rs`): `Deserialize` is derived, so it reads
the variant *name* (serialisation is the custom integer — asymmetric in
the source). -/
def decodeErrorCode (j : Json) : Option ErrorCode :=
  match j with
  | .str s =>
    if s = "ParseError" then some .parseError
    else if s = "InvalidRequest" then some .invalidRequest
    else if s = "MethodNotFound" then some .methodNotFound
    else if s = "InvalidParams" then some .invalidParams
    else if s = "Internal" then some .internal
    else if s = "ServerNotInitialised" then some .serverNotInitialised
    else if s = "ServerAlreadyInitialised" then some .serverAlreadyInitialised
    else none
  | _ => none

/-- Rust `Error` (`src/model.rs`). -/
def decodeErrorObject (j : Json) : Option ErrorObject :=
  match j with
  | .obj fs => do
    let code ← reqField fs "code" decodeErrorCode
    let message ← reqField fs "message" decodeString
    let data ← optField fs "data" (fun v => some v)
    some ⟨code, message, data⟩
  | _ => none

/-- Rust `initialise::Result` and its nested structures, read back from their
serialised shape. -/
def decodeInitialiseResult (j : Json) : Option InitialiseResult :=
  match j with
  | .obj fs => do
    let caps ← reqField fs "capabilities" (fun v =>
      match v with
      | .obj cfs => do
        let pe ← reqField cfs "positionEncoding" decodePositionEncoding
        let tds ← reqField cfs "textDocumentSync" (fun w =>
          match w with
          | .obj tfs => do
            let oc ← reqField tfs "openClose" decodeBool
            let change ← reqField tfs "change" (fun u =>
              match u with
              | .num 0 => some TextDocumentSyncKind.none
              | .num 1 => some TextDocumentSyncKind.full
              | .num 2 => some TextDocumentSyncKind.incremental
              | _ => none)
            some (TextDocumentSync.mk oc change)
          | _ => none)
        let dp ← reqField cfs "diagnosticProvider" (fun w =>
          match w with
          | .obj dfs => do
            let ident ← reqField dfs "identifier" decodeString
            let ifd ← reqField dfs "interFileDependencies" decodeBool
            let wd ← reqField dfs "workspaceDiagnostics" decodeBool
            some (DiagnosticOptions.mk ident ifd wd)
          | _ => none)
        some (ServerCapabilities.mk pe tds dp)
      | _ => none)
    let si ← reqField fs "serverInfo" (fun v =>
      match v with
      | .obj sfs => do
        let name ← reqField sfs "name" decodeString
        let version ← reqField sfs "version" decodeString
        some (ServerInfo.mk name version)
      | _ => none)
    some ⟨caps, si⟩
  | _ => none

/-- Rust `ReportKind` (`src/model/method/diagnostic/pull.rs`). -/
def decodeReportKindIs (expected : String) (j : Json) : Option Unit :=
  match j with
  | .str s => if s = expected then some () else none
  | _ => none

/-- Rust `pull::Result` (`src/model/method/diagnostic/pull.rs`), untagged:
`Full` then `Unchanged`. The embedding folds the `kind` discriminator
into the constructor, so each branch requires the matching kind string. -/
def decodePullResult (j : Json) : Option diagnostic.pull.Result :=
  match j with
  | .obj fs =>
    match
      (do
        let _ ← reqField fs "kind" (decodeReportKindIs "full")
        let rid ← reqField fs "result_id" decodeString
        let items ← reqField fs "items" (fun v =>
          match v with
          | .arr xs => decodeList decodeDiagnostic xs
          | _ => none)
        some (diagnostic.pull.Result.full rid items)) with
    | some r => some r
    | none => do
      let _ ← reqField fs "kind" (decodeReportKindIs "unchanged")
      let rid ← reqField fs "result_id" decodeString
      some (diagnostic.pull.Result.unchanged rid)
  | _ => none

/-- Rust `ResponseResult` (`src/model.rs`), untagged: `Initialise`,
`PullDiagnostics`, then `Null`. -/
def decodeResponseResult (j : Json) : Option ResponseResult :=
  match decodeInitialiseResult j with
  | some r => some (.initialise r)
  | none =>
    match decodePullResult j with
    | some r => some (.pullDiagnostics r)
    | none =>
      match j with
      | .null => some .null
      | _ => none

/-- Rust `SuccessResponse` (`src/model.rs`). -/
def decodeSuccessResponse (j : Json) : Option SuccessResponse :=
  match j with
  | .obj fs => do
    let _ ← reqField fs "jsonrpc" decodeVersion
    let result ← reqField fs "result" decodeResponseResult
    let id ← reqField fs "id" decodeRequestId
    some ⟨result, id⟩
  | _ => none

/-- Rust `ErrorResponse` (`src/model.rs`). -/
def decodeErrorResponse (j : Json) : Option ErrorResponse :=
  match j with
  | .obj fs => do
    let _ ← reqField fs "jsonrpc" decodeVersion
    let error ← reqField fs "error" decodeErrorObject
    let id ← reqField fs "id" decodeRequestId
    some ⟨error, id⟩
  | _ => none

/-! `Response` decoding recurses through nested batches; it is written
with explicit fuel so that it reduces in the kernel. The fuel is threaded
in from `decodeMessageString`, where it is the input text's length plus
one: a parsed value's nesting depth is below the text length (every
nesting level consumes at least one character), so the fuel-exhausted
branch is unreachable. -/

mutual
def decodeResponseFuel : Nat → Json → Option Response
  | 0, _ => none
  | _ + 1, .obj fs =>
    (match decodeSuccessResponse (.obj fs) with
    | some s => some (.success s)
    | none => (decodeErrorResponse (.obj fs)).map .error)
  | fuel + 1, .arr elems => (decodeResponseListFuel fuel elems).map .batch
  | _ + 1, _ => none

def decodeResponseListFuel : Nat → List Json → Option (List Response)
  | 0, _ => none
  | _ + 1, [] => some []
  | fuel + 1, x :: xs =>
    match decodeResponseFuel fuel x, decodeResponseListFuel fuel xs with
    | some r, some rs => some (r :: rs)
    | _, _ => none
end

/-- Rust `Response` (`src/model.rs`), untagged: `Success`, `Error`, `Batch`,
first match wins. `Success`/`Error` only ever match an object and `Batch`
only an array, so the try-order is realised by the shape split. -/
def decodeResponse (fuel : Nat) (j : Json) : Option Response :=
  decodeResponseFuel fuel j

/-- Rust `Message` (`src/model.rs`), untagged: Request, BatchRequest (a JSON
array of requests), Notification, Response — first structurally valid
interpretation wins. -/
def decodeMessage (fuel : Nat) (j : Json) : Option Message :=
  match decodeRequest j with
  | some r => some (.request r)
  | none =>
    match j with
    | .arr elems =>
      match decodeList decodeRequest elems with
      | some rs => some (.batchRequest rs)
      | none =>
        match decodeNotification j with
        | some n => some (.notification n)
        | none => (decodeResponse fuel j).map .response
    | _ =>
      match decodeNotification j with
      | some n => some (.notification n)
      | none => (decodeResponse fuel j).map .response

/-- Rust `serde_json::from_str::<Message>`. -/
def decodeMessageString (s : String) : Option Message :=
  (Json.parse s).bind (decodeMessage (s.length + 1))

end CfnLsp

namespace CfnLsp

/-! ## Frame reader (`src/reader.rs`)

The nom parsers are embedded as functions `List Char → Option (result ×
remainder)`. `Reader::read` is a loop over `read_line`; it is modelled
with explicit fuel (the Rust loop diverges at end of input, which the
model renders as running out of fuel). -/

/-- nom `tag`: consume a literal prefix. -/
def tagP (pat : List Char) (s : List Char) : Option (List Char) :=
  if pat.isPrefixOf s then some (s.drop pat.length) else none

/-- nom `take_until`: everything before the first occurrence of the
pattern; fails when the pattern does not occur. The pattern itself is not
consumed. -/
def takeUntilP (pat : List Char) : List Char → Option (List Char × List Char)
  | [] => none
  | c :: rest =>
    if pat.isPrefixOf (c :: rest) then some ([], c :: rest)
    else
      match takeUntilP pat rest with
      | some (pre, suf) => some (c :: pre, suf)
      | none => none

/-- nom `take_until1`: as `take_until`, but the consumed part must be
non-empty. -/
def takeUntil1P (pat : List Char) (s : List Char) :
    Option (List Char × List Char) :=
  match takeUntilP pat s with
  | some ([], _) => none
  | r => r

/-- nom `digit1`: one or more ASCII digits. -/
def digit1P (s : List Char) : Option (List Char × List Char) :=
  match Json.takeDigits s with
  | ([], _) => none
  | r => some r

/-- nom `crlf`. -/
def crlfP (s : List Char) : Option (List Char) :=
  tagP ['\r', '\n'] s

/-- nom `line_ending`: `"\n"` or `"\r\n"`. -/
def lineEndingP : List Char → Option (List Char)
  | '\n' :: rest => some rest
  | '\r' :: '\n' :: rest => some rest
  | _ => none

/-- Rust `Header` (referenced from `src/reader.rs`). -/
inductive Header where
  | contentLength (n : Nat) : Header
  | contentType (contentType : String) (charset : String) : Header
  deriving DecidableEq, Repr

/-- Rust `ReadError` (`src/reader.rs`). -/
inductive ReadError where
  | incompleteMessage : ReadError
  | missingContentLength : ReadError
  | invalidContentType (s : String) : ReadError
  | invalidRequest (id : RequestId) (errorCode : ErrorCode) : ReadError
  | internal (s : String) : ReadError
  deriving DecidableEq, Repr

namespace Reader

/-- Rust `Reader::content_length_header` (`src/reader.rs`): tag
`"Content-Length: "`, `digit1` mapped through `u32::from_str_radix`
(which fails past `u32::MAX`), then `crlf`. -/
def contentLengthHeader (s : List Char) : Option (Header × List Char) := do
  let s₁ ← tagP "Content-Length: ".data s
  let (ds, s₂) ← digit1P s₁
  let s₃ ← crlfP s₂
  let n := Json.natOfDigits ds
  if n < 2 ^ 32 then some (.contentLength n, s₃) else none

/-- Rust `Reader::content_type_header` (`src/reader.rs`): tag
`"Content-Type: "`, then `take_until1(";")`, `"; "`, `"charset="`,
`take_until("\r\n")`, then `crlf`. -/
def contentTypeHeader (s : List Char) : Option (Header × List Char) := do
  let s₁ ← tagP "Content-Type: ".data s
  let (ct, s₂) ← takeUntil1P [';'] s₁
  let s₃ ← tagP "; ".data s₂
  let s₄ ← tagP "charset=".data s₃
  let (cs, s₅) ← takeUntilP ['\r', '\n'] s₄
  let s₆ ← crlfP s₅
  some (.contentType (String.mk ct) (String.mk cs), s₆)

/-- Rust `Reader::headers` (`src/reader.rs`): a nom `permutation` of the
mandatory Content-Length header and an optional Content-Type header, in
either wire order; the result always lists Content-Length first. -/
def headers (s : List Char) : Option (List Header × List Char) :=
  match contentLengthHeader s with
  | some (cl, r) =>
    (match contentTypeHeader r with
    | some (ct, r₂) => some ([cl, ct], r₂)
    | none => some ([cl], r))
  | none =>
    match contentTypeHeader s with
    | some (ct, r) =>
      (match contentLengthHeader r with
      | some (cl, r₂) => some ([cl, ct], r₂)
      | none => none)
    | none => none

/-- Rust `Reader::end_of_headers` (`src/reader.rs`): `crlf` followed by
not-end-of-input (nothing further consumed). -/
def endOfHeaders (s : List Char) : Option (List Char) := do
  let r ← crlfP s
  if r = [] then none else some r

/-- Rust `Reader::parse` (`src/reader.rs`): parse the header block (failure →
`MissingContentLength`), the blank-line terminator with content after it
(failure → `IncompleteMessage`), then hand the entire remainder of the
buffer — the parsed `Content-Length` value is never consulted — to
`serde_json::from_str::<Message>`; any decode failure becomes
`InvalidRequest { id: Null, error_code: InvalidRequest }`. -/
def parse (message : List Char) : Except ReadError Message :=
  match headers message with
  | none => .error .missingContentLength
  | some (_, remainder) =>
    match endOfHeaders remainder with
    | none => .error .incompleteMessage
    | some remainder₂ =>
      match decodeMessageString (String.mk remainder₂) with
      | some m => .ok m
      | none => .error (.invalidRequest .null .invalidRequest)

/-- Rust `stdin.read_line`: consume up to and including the first `'\n'`, or
the rest of the input. -/
def readLine : List Char → List Char × List Char
  | [] => ([], [])
  | c :: rest =>
    if c = '\n' then ([c], rest)
    else
      let (line, r) := readLine rest
      (c :: line, r)

/-- Rust `Reader::read` (`src/reader.rs`): repeatedly `read_line` into the
buffer and try `parse`; `IncompleteMessage` continues the loop, anything
else is returned (and the buffer cleared). Returns the result together
with the unconsumed part of the input stream; `none` models divergence
(the Rust loop never exits at end of input). -/
def readLoop : Nat → List Char → List Char →
    Option (Except ReadError Message × List Char)
  | 0, _, _ => none
  | fuel + 1, buffer, stdin =>
    let lineRest := readLine stdin
    let buffer := buffer ++ lineRest.1
    match parse buffer with
    | .error .incompleteMessage => readLoop fuel buffer lineRest.2
    | result => some (result, lineRest.2)

def read (stdin : List Char) : Option (Except ReadError Message × List Char) :=
  readLoop (stdin.length + 1) [] stdin

end Reader

/-! ## Response serialisation (`serde_json::to_string` on `Response`)

The `Serialize` derives on the envelope model, conveyed through the
`Json` AST and `Json.render`. Field order is declaration order; `None`
serialises as `null`. -/

def jsonOfRequestId : RequestId → Json
  | .str s => .str s
  | .num n => .num n
  | .null => .null

def jsonOfOpt (f : α → Json) : Option α → Json
  | some a => f a
  | none => .null

def jsonOfPosition (p : diagnostic.Position) : Json :=
  .obj [("line", .num p.line), ("character", .num p.character)]

def jsonOfRange (r : diagnostic.Range) : Json :=
  .obj [("start", jsonOfPosition r.start), ("end", jsonOfPosition r.end)]

def jsonOfLocation (l : diagnostic.Location) : Json :=
  .obj [("uri", .str l.uri), ("range", jsonOfRange l.range)]

def jsonOfRelatedInformation (ri : diagnostic.RelatedInformation) : Json :=
  .obj [("location", jsonOfLocation ri.location), ("message", .str ri.message)]

def jsonOfCodeDescription (cd : diagnostic.CodeDescription) : Json :=
  .obj [("href", .str cd.href)]

/-- Rust `Diagnostic` serialisation (`rename_all = "camelCase"`); `Severity`
and `Tag` serialise as their integer values. -/
def jsonOfDiagnostic (d : diagnostic.Diagnostic) : Json :=
  .obj
    [("range", jsonOfRange d.range),
     ("severity", .num d.severity.value),
     ("code", .str d.code),
     ("codeDescription", jsonOfOpt jsonOfCodeDescription d.codeDescription),
     ("source", jsonOfOpt Json.str d.source),
     ("message", .str d.message),
     ("tags", .arr (d.tags.map (fun t => .num t.value))),
     ("relatedInformation", .arr (d.relatedInformation.map jsonOfRelatedInformation)),
     ("data", jsonOfOpt id d.data)]

/-- Rust `pull::Result` serialisation: untagged, `kind` rendered lowercase. -/
def jsonOfPullResult : diagnostic.pull.Result → Json
  | .full rid items =>
    .obj
      [("kind", .str "full"), ("result_id", .str rid),
       ("items", .arr (items.map jsonOfDiagnostic))]
  | .unchanged rid =>
    .obj [("kind", .str "unchanged"), ("result_id", .str rid)]

/-- Rust `initialise::Result` serialisation (`src/model/method/initialise.rs`):
camelCase server capabilities plus server info. -/
def jsonOfInitialiseResult (r : InitialiseResult) : Json :=
  .obj
    [("capabilities",
      .obj
        [("positionEncoding", .str "utf-16"),
         ("textDocumentSync",
          .obj
            [("openClose", .bool r.capabilities.textDocumentSync.openClose),
             ("change", .num r.capabilities.textDocumentSync.change.value)]),
         ("diagnosticProvider",
          .obj
            [("identifier", .str r.capabilities.diagnosticProvider.identifier),
             ("interFileDependencies",
              .bool r.capabilities.diagnosticProvider.interFileDependencies),
             ("workspaceDiagnostics",
              .bool r.capabilities.diagnosticProvider.workspaceDiagnostics)])]),
     ("serverInfo",
      .obj
        [("name", .str r.serverInfo.name),
         ("version", .str r.serverInfo.version)])]

/-- Rust `ResponseResult` serialisation: untagged. -/
def jsonOfResponseResult : ResponseResult → Json
  | .initialise r => jsonOfInitialiseResult r
  | .pullDiagnostics r => jsonOfPullResult r
  | .null => .null

/-- Rust `Error` serialisation; `ErrorCode` uses its custom `serialize_i32`. -/
def jsonOfErrorObject (e : ErrorObject) : Json :=
  .obj
    [("code", .num e.code.code), ("message", .str e.message),
     ("data", jsonOfOpt id e.data)]

mutual
/-- Rust `Response` serialisation (`src/model.rs`): untagged; struct fields in
declaration order `jsonrpc`, `result`/`error`, `id`. -/
def jsonOfResponse : Response → Json
  | .success s =>
    .obj
      [("jsonrpc", .str "2.0"), ("result", jsonOfResponseResult s.result),
       ("id", jsonOfRequestId s.id)]
  | .error e =>
    .obj
      [("jsonrpc", .str "2.0"), ("error", jsonOfErrorObject e.error),
       ("id", jsonOfRequestId e.id)]
  | .batch rs => .arr (jsonOfResponseList rs)

def jsonOfResponseList : List Response → List Json
  | [] => []
  | r :: rs => jsonOfResponse r :: jsonOfResponseList rs
end

/-- Rust `serde_json::to_string(&response)` (`src/writer.rs` line 38). For the
response types of this crate serialisation cannot fail, so it is total. -/
def serializeResponse (r : Response) : String :=
  (jsonOfResponse r).render

end CfnLsp

namespace CfnLsp

/-! ## Frame writer (`src/writer.rs`)

The write side of the Transport Channel is modelled as the sequence of
operations the writer performs on it. `Writer::write` performs four
`write` calls — Content-Length header, the fixed Content-Type header, the
blank line, the body — and never calls `flush`. -/

/-- One operation on the channel's write side. -/
inductive ChannelOp where
  | write (bytes : String) : ChannelOp
  | flush : ChannelOp
  deriving DecidableEq, Repr

/-- The character for a decimal digit value. -/
def digitChar (d : Nat) : Char :=
  if d = 0 then '0' else if d = 1 then '1' else if d = 2 then '2'
  else if d = 3 then '3' else if d = 4 then '4' else if d = 5 then '5'
  else if d = 6 then '6' else if d = 7 then '7' else if d = 8 then '8'
  else '9'

/-- Rust's decimal rendering of an unsigned integer, most significant
digit first (`format!("{}", n)`). -/
def natReprAux (n : Nat) (acc : List Char) : List Char :=
  if _h : n < 10 then digitChar (n % 10) :: acc
  else natReprAux (n / 10) (digitChar (n % 10) :: acc)
termination_by n
decreasing_by
  simp_wf
  omega

def natRepr (n : Nat) : String :=
  String.mk (natReprAux n [])

/-- Rust `CONTENT_TYPE_HEADER` (`src/writer.rs`). -/
def contentTypeHeaderBytes : String :=
  "Content-Type: application/vscode-jsonrpc; charset=utf-8\r\n"

namespace Writer

/-- Rust `Writer::content_length` (`src/writer.rs`). -/
def contentLengthBytes (contentLength : Nat) : String :=
  "Content-Length: " ++ natRepr contentLength ++ "\r\n"

/-- Rust `Writer::write_headers` (`src/writer.rs`): three writes, no flush. -/
def writeHeaders (contentLength : Nat) : List ChannelOp :=
  [.write (contentLengthBytes contentLength), .write contentTypeHeaderBytes,
   .write "\r\n"]

/-- Rust `Writer::write` (`src/writer.rs`): serialize the response, write the
header block with `Content-Length` set to the serialized body's length
(`json.len()`), then write the body. No `flush` is ever issued. -/
def write (response : Response) : List ChannelOp :=
  let json := serializeResponse response
  writeHeaders json.length ++ [.write json]

/-- The bytes a sequence of channel operations puts on the wire. -/
def writtenBytes (ops : List ChannelOp) : String :=
  ops.foldl
    (fun acc op =>
      match op with
      | .write s => acc ++ s
      | .flush => acc)
    ""

end Writer

/-! ## cfn-lint output parsing (`src/method/diagnostic.rs`, `mod parser`)

The textual-tool-backed `Lint` implementation parses cfn-lint's stdout.
Only the pieces the claims touch are embedded: the `range` parser that
turns `<path>:<line>:<column>` into LSP `Position`s, and the `code`
parser's severity mapping. -/

namespace lintParser

/-- Rust `parser::range` (`src/method/diagnostic.rs`): `take_until(":")` and
the `":"` tag discard the file path, then `digit1 ":" digit1` (each
through `str::parse::<u32>`) produce `(line, character)`, from which
`Position::new(line, character)` is built verbatim and duplicated into a
zero-width `Range`; a `line_ending` closes the line. -/
def range (s : List Char) : Option (diagnostic.Range × List Char) := do
  let (_, s₁) ← takeUntilP [':'] s
  let s₂ ← tagP [':'] s₁
  let (ds₁, s₃) ← digit1P s₂
  let line := Json.natOfDigits ds₁
  if line < 2 ^ 32 then
    let s₄ ← tagP [':'] s₃
    let (ds₂, s₅) ← digit1P s₄
    let character := Json.natOfDigits ds₂
    if character < 2 ^ 32 then
      let s₆ ← lineEndingP s₅
      let position := diagnostic.Position.mk line character
      some (diagnostic.Range.mk position position, s₆)
    else none
  else none

/-- Rust `parser::code` severity mapping (`src/method/diagnostic.rs`): a code
starting with `E`/`W`/`I` maps to Error/Warning/Information; anything
else hits a `todo!()` in the source, modelled as `none`. -/
def codeSeverity (code : String) : Option diagnostic.Severity :=
  if code.startsWith "E" then some .error
  else if code.startsWith "W" then some .warning
  else if code.startsWith "I" then some .information
  else none

end lintParser

end CfnLsp

namespace CfnLsp

/-! ## Theorems -/

/-- Every single-request response carries the request's id: each branch of
`handle_request` builds its response from `request.id()`. -/
theorem responseId_handleRequest (linter : Linter) (st : State) (req : Request) :
    responseId (handleRequest linter st req).1 = some req.id := by
  obtain ⟨m, id⟩ := req
  cases st with
  | uninitialised =>
    cases m <;> simp [handleRequest, uninitialisedRequest, responseId]
  | shutdown =>
    simp [handleRequest, requestPostShutdown, responseId]
  | initialised p =>
    cases m with
    | initialise q =>
      simp [handleRequest, alreadyInitialised, responseId]
    | shutdown =>
      simp [handleRequest, responseId]
    | pullDiagnostics params =>
      cases hl : linter params.uri <;>
        simp [handleRequest, pullDiagnostics, hl, responseId]

/-- Batch processing answers every element: one response per request. -/
theorem handleRequests_length (linter : Linter) (reqs : List Request)
    (st : State) :
    ((handleRequests linter st reqs).1).length = reqs.length := by
  induction reqs generalizing st with
  | nil => rfl
  | cons r rest ih => simp [handleRequests, ih]

/-- The i-th response of a batch run carries the i-th request's id. -/
theorem handleRequests_get (linter : Linter) (reqs : List Request) (st : State)
    (i : Nat) (h : i < reqs.length)
    (h' : i < ((handleRequests linter st reqs).1).length) :
    responseId (((handleRequests linter st reqs).1).get ⟨i, h'⟩) =
      some ((reqs.get ⟨i, h⟩).id) := by
  induction reqs generalizing st i with
  | nil => exact absurd h (by simp)
  | cons r rest ih =>
    cases i with
    | zero => simpa [handleRequests] using responseId_handleRequest linter st r
    | succ n =>
      have hn : n < rest.length := by
        simpa using h
      have hn' : n < ((handleRequests linter
          (handleRequest linter st r).2 rest).1).length := by
        simpa [handleRequests_length] using hn
      simpa [handleRequests] using
        ih (handleRequest linter st r).2 n hn hn'

/-- C1: in `Uninitialised`, `initialize` transitions to `Initialised` and
returns the default capabilities result, and every other request method
returns `ServerNotInitialised` (-32002) leaving the state unchanged; in
`Initialised`, `shutdown` transitions to `Shutdown` with a null result and
`initialize` returns `ServerAlreadyInitialised` (-32003); in `Shutdown`,
every request method returns `InvalidRequest` (-32600) with message
"Server has been shutdown". `handleRequest` is a total function, so no
(state, method) pair is unhandled. -/
theorem c1_dispatch_table (linter : Linter) :
    (∀ p id, handleRequest linter .uninitialised ⟨.initialise p, id⟩ =
      (.success ⟨.initialise .default, id⟩, .initialised p)) ∧
    (∀ m id, (∀ p, m ≠ RequestMethod.initialise p) →
      handleRequest linter .uninitialised ⟨m, id⟩ =
        (.error ⟨⟨.serverNotInitialised, "Server not initialised", none⟩, id⟩,
         .uninitialised)) ∧
    ErrorCode.serverNotInitialised.code = -32002 ∧
    (∀ p id, handleRequest linter (.initialised p) ⟨.shutdown, id⟩ =
      (.success ⟨.null, id⟩, .shutdown)) ∧
    (∀ p q id, handleRequest linter (.initialised p) ⟨.initialise q, id⟩ =
      (.error ⟨⟨.serverAlreadyInitialised, "Server already initialised", none⟩, id⟩,
       .initialised p)) ∧
    ErrorCode.serverAlreadyInitialised.code = -32003 ∧
    (∀ m id, handleRequest linter .shutdown ⟨m, id⟩ =
      (.error ⟨⟨.invalidRequest, "Server has been shutdown", none⟩, id⟩,
       .shutdown)) ∧
    ErrorCode.invalidRequest.code = -32600 := by
  refine ⟨fun p id => rfl, ?_, rfl, fun p id => rfl, fun p q id => rfl, rfl,
    fun m id => rfl, rfl⟩
  intro m id hm
  cases m with
  | initialise p => exact absurd rfl (hm p)
  | shutdown => rfl
  | pullDiagnostics params => rfl

/-- C1 witness: a concrete cell of the table — `shutdown` before
`initialize` is rejected with `ServerNotInitialised`. -/
theorem c1_dispatch_table_witness :
    handleRequest linterEmpty .uninitialised ⟨.shutdown, .num 7⟩ =
      (.error ⟨⟨.serverNotInitialised, "Server not initialised", none⟩, .num 7⟩,
       .uninitialised) :=
  (c1_dispatch_table linterEmpty).2.1 .shutdown (.num 7)
    (fun _p h => RequestMethod.noConfusion h)

/-- C3: a batch of N requests yields a `Batch` response of exactly N
elements with response[i] carrying request[i]'s id (order preserved, one
element's error never drops a sibling), the elements being dispatched
against the threaded state; concretely, two `shutdown`s sent while
`Initialised` give first a null-result success and then an
`InvalidRequest` error "Server has been shutdown". -/
theorem c3_batch_ordering (linter : Linter) :
    (∀ st reqs, handleRequestBatch linter st reqs =
      (.batch (handleRequests linter st reqs).1,
       (handleRequests linter st reqs).2)) ∧
    (∀ st reqs, ((handleRequests linter st reqs).1).length = reqs.length) ∧
    (∀ st reqs i (h : i < reqs.length)
      (h' : i < ((handleRequests linter st reqs).1).length),
      responseId (((handleRequests linter st reqs).1).get ⟨i, h'⟩) =
        some ((reqs.get ⟨i, h⟩).id)) ∧
    (∀ p, handleRequestBatch linter (.initialised p)
        [⟨.shutdown, .str "a"⟩, ⟨.shutdown, .str "b"⟩] =
      (.batch
        [.success ⟨.null, .str "a"⟩,
         .error ⟨⟨.invalidRequest, "Server has been shutdown", none⟩, .str "b"⟩],
       .shutdown)) := by
  refine ⟨fun st reqs => rfl, fun st reqs => handleRequests_length linter reqs st,
    fun st reqs i h h' => handleRequests_get linter reqs st i h h',
    fun p => rfl⟩

/-- C3 witness: the second element of the concrete two-shutdown batch
carries id "b". -/
theorem c3_batch_ordering_witness :
    responseId (((handleRequests linterEmpty
        (.initialised initialise.Params.minimal)
        [⟨.shutdown, .str "a"⟩, ⟨.shutdown, .str "b"⟩]).1).get
          ⟨1, by decide⟩) =
      some (RequestId.str "b") :=
  (c3_batch_ordering linterEmpty).2.2.1
    (.initialised initialise.Params.minimal)
    [⟨.shutdown, .str "a"⟩, ⟨.shutdown, .str "b"⟩] 1 (by decide) (by decide)

end CfnLsp

namespace CfnLsp

/-- A single request never moves the lifecycle backwards. -/
theorem rank_le_handleRequest (linter : Linter) (st : State) (req : Request) :
    st.rank ≤ ((handleRequest linter st req).2).rank := by
  obtain ⟨m, id⟩ := req
  cases st with
  | uninitialised => cases m <;> simp [handleRequest, State.rank]
  | shutdown => simp [handleRequest, State.rank]
  | initialised p => cases m <;> simp [handleRequest, State.rank]

/-- Threaded batch processing never moves the lifecycle backwards. -/
theorem rank_le_handleRequests (linter : Linter) (reqs : List Request)
    (st : State) :
    st.rank ≤ ((handleRequests linter st reqs).2).rank := by
  induction reqs generalizing st with
  | nil => exact Nat.le_refl _
  | cons r rest ih =>
    exact Nat.le_trans (rank_le_handleRequest linter st r)
      (by simpa [handleRequests] using ih (handleRequest linter st r).2)

/-- No request branch ever produces the `Uninitialised` state from
another state. -/
theorem uninit_of_handleRequest (linter : Linter) (st : State) (req : Request)
    (h : (handleRequest linter st req).2 = .uninitialised) :
    st = .uninitialised := by
  obtain ⟨m, id⟩ := req
  cases st with
  | uninitialised => rfl
  | shutdown => simp [handleRequest] at h
  | initialised p => cases m <;> simp [handleRequest] at h

/-- No batch ever produces the `Uninitialised` state from another state. -/
theorem uninit_of_handleRequests (linter : Linter) (reqs : List Request)
    (st : State) (h : (handleRequests linter st reqs).2 = .uninitialised) :
    st = .uninitialised := by
  induction reqs generalizing st with
  | nil => exact h
  | cons r rest ih =>
    exact uninit_of_handleRequest linter st r
      (ih (handleRequest linter st r).2 (by simpa [handleRequests] using h))

/-- Requests cannot leave the `Shutdown` state. -/
theorem handleRequests_shutdown (linter : Linter) (reqs : List Request) :
    (handleRequests linter State.shutdown reqs).2 = State.shutdown := by
  induction reqs with
  | nil => rfl
  | cons r rest ih => simpa [handleRequests, handleRequest] using ih

/-- C5: lifecycle transitions are monotonic and one-directional along
Uninitialised → Initialised → Shutdown: a handled message never lowers
the lifecycle rank, no message ever produces `Uninitialised` from a later
state, `Shutdown` is absorbing, and over any sequence of handled messages
the rank never decreases. -/
theorem c5_monotonic_lifecycle (linter : Linter) :
    (∀ st msg, st.rank ≤ ((handle linter st msg).2).rank) ∧
    (∀ st msg, (handle linter st msg).2 = .uninitialised →
      st = .uninitialised) ∧
    (∀ msg, (handle linter State.shutdown msg).2 = State.shutdown) ∧
    (∀ st msgs, st.rank ≤ (execMessages linter st msgs).rank) := by
  have hstep : ∀ st msg, st.rank ≤ ((handle linter st msg).2).rank := by
    intro st msg
    cases msg with
    | request r => simpa [handle] using rank_le_handleRequest linter st r
    | batchRequest rs =>
      simpa [handle, handleRequestBatch] using
        rank_le_handleRequests linter rs st
    | notification n =>
      cases hn : handleNotification linter st n <;> simp [handle, hn]
    | response r => simp [handle]
  refine ⟨hstep, ?_, ?_, ?_⟩
  · intro st msg h
    cases msg with
    | request r =>
      exact uninit_of_handleRequest linter st r (by simpa [handle] using h)
    | batchRequest rs =>
      exact uninit_of_handleRequests linter rs st
        (by simpa [handle, handleRequestBatch] using h)
    | notification n =>
      cases hn : handleNotification linter st n <;>
        simpa [handle, hn] using h
    | response r => simpa [handle] using h
  · intro msg
    cases msg with
    | request r => simp [handle, handleRequest]
    | batchRequest rs =>
      simpa [handle, handleRequestBatch] using
        handleRequests_shutdown linter rs
    | notification n =>
      cases hn : handleNotification linter State.shutdown n <;> simp [handle, hn]
    | response r => simp [handle]
  · intro st msgs
    induction msgs generalizing st with
    | nil => exact Nat.le_refl _
    | cons m rest ih =>
      rcases hh : handle linter st m with ⟨outcome, st'⟩
      have h₁ : st.rank ≤ st'.rank := by
        have := hstep st m
        rw [hh] at this
        exact this
      cases outcome with
      | terminated => simpa [execMessages, hh] using h₁
      | next reply =>
        exact Nat.le_trans h₁ (by simpa [execMessages, hh] using ih st')

/-- C5 witness: applying the no-return-to-`Uninitialised` part at a
concrete message. -/
theorem c5_monotonic_lifecycle_witness :
    State.uninitialised = State.uninitialised :=
  (c5_monotonic_lifecycle linterEmpty).2.1 .uninitialised
    (.response (.batch [])) rfl

end CfnLsp

namespace CfnLsp

/-- C6 counterexample: in the `Initialised` state the `exit` notification
falls through to the no-op arm of `handle_notification`, so the process
is *not* terminated — refuting "for every session state, handling an
`exit` notification terminates the whole process". -/
theorem c6_exit_counterexample :
    (handle linterEmpty (.initialised initialise.Params.minimal)
      (.notification ⟨.exit⟩)).1 ≠ HandleOutcome.terminated := by
  intro h
  exact HandleOutcome.noConfusion h

/-- C6 (amended): `exit` terminates the process immediately with no
response in the `Uninitialised` and `Shutdown` states; in `Initialised`
it is a silent no-op (no termination, no output, no state change); and
`exit` is the only message whose handling terminates the process. -/
theorem c6_exit_semantics (linter : Linter) :
    handle linter .uninitialised (.notification ⟨.exit⟩) =
      (.terminated, .uninitialised) ∧
    handle linter State.shutdown (.notification ⟨.exit⟩) =
      (.terminated, State.shutdown) ∧
    (∀ p, handle linter (.initialised p) (.notification ⟨.exit⟩) =
      (.next none, .initialised p)) ∧
    (∀ st msg, (handle linter st msg).1 = .terminated →
      msg = .notification ⟨.exit⟩ ∧ ∀ p, st ≠ State.initialised p) := by
  refine ⟨rfl, rfl, fun p => rfl, ?_⟩
  intro st msg h
  cases msg with
  | request r => simp [handle] at h
  | batchRequest rs => simp [handle] at h
  | response r => simp [handle] at h
  | notification n =>
    obtain ⟨nm⟩ := n
    cases st with
    | uninitialised =>
      cases nm <;> simp_all [handle, handleNotification]
    | shutdown =>
      cases nm <;> simp_all [handle, handleNotification]
    | initialised p =>
      cases nm <;> simp [handle, handleNotification] at h

/-- C6 witness: the termination-only-via-exit part applied at the
`Shutdown` state. -/
theorem c6_exit_semantics_witness :
    Message.notification ⟨.exit⟩ = Message.notification ⟨.exit⟩ ∧
    ∀ p, State.shutdown ≠ State.initialised p :=
  (c6_exit_semantics linterEmpty).2.2.2 State.shutdown
    (.notification ⟨.exit⟩) rfl

/-- C7: in the `Initialised` state, a `textDocument/diagnostic` request
whose lint run fails produces `Response::Error` with code `Internal`
(-32603) and the fixed message "Failed to generate diagnostics", and the
session state is unchanged by the failed request. -/
theorem c7_pull_diagnostics_failure (linter : Linter) (p : initialise.Params)
    (params : diagnostic.pull.Params) (id : RequestId) (e : String)
    (h : linter params.uri = .error e) :
    handleRequest linter (.initialised p) ⟨.pullDiagnostics params, id⟩ =
      (.error ⟨⟨.internal, "Failed to generate diagnostics", none⟩, id⟩,
       .initialised p) ∧
    ErrorCode.internal.code = -32603 := by
  exact ⟨by simp [handleRequest, pullDiagnostics, h], rfl⟩

/-- C7 witness: the failing linter at a concrete pull request. -/
theorem c7_pull_diagnostics_failure_witness :
    handleRequest linterFailing (.initialised initialise.Params.minimal)
      ⟨.pullDiagnostics ⟨⟨"file:///template.yaml"⟩, none, none⟩, .num 3⟩ =
      (.error ⟨⟨.internal, "Failed to generate diagnostics", none⟩, .num 3⟩,
       .initialised initialise.Params.minimal) :=
  (c7_pull_diagnostics_failure linterFailing initialise.Params.minimal
    ⟨⟨"file:///template.yaml"⟩, none, none⟩ (.num 3)
    "cfn-lint invocation failed" rfl).1

/-- C10: in the `Initialised` state, when a `didOpen` or `didSave`
notification triggers a publish-diagnostics run and the lint fails, the
handler emits no outbound message at all — no publishDiagnostics
notification, no error response — and the state is unchanged: the failure
is silently dropped. -/
theorem c10_publish_failure_silent (linter : Linter) (p : initialise.Params)
    (dp : didOpen.Params) (sp : didSave.Params) (e e' : String)
    (h₁ : linter dp.textDocument.uri = .error e)
    (h₂ : linter sp.textDocument.uri = .error e') :
    handle linter (.initialised p) (.notification ⟨.didOpen dp⟩) =
      (.next none, .initialised p) ∧
    handle linter (.initialised p) (.notification ⟨.didSave sp⟩) =
      (.next none, .initialised p) := by
  constructor
  · simp [handle, handleNotification, publishDiagnostics, h₁]
  · simp [handle, handleNotification, publishDiagnostics, h₂]

/-- C10 witness: the failing linter at concrete `didOpen`/`didSave`
notifications. -/
theorem c10_publish_failure_silent_witness :
    handle linterFailing (.initialised initialise.Params.minimal)
      (.notification ⟨.didOpen ⟨⟨"file:///t.yaml", "yaml", 1, "Resources:"⟩⟩⟩) =
      (.next none, .initialised initialise.Params.minimal) ∧
    handle linterFailing (.initialised initialise.Params.minimal)
      (.notification ⟨.didSave ⟨⟨"file:///t.yaml"⟩⟩⟩) =
      (.next none, .initialised initialise.Params.minimal) :=
  c10_publish_failure_silent linterFailing initialise.Params.minimal
    ⟨⟨"file:///t.yaml", "yaml", 1, "Resources:"⟩⟩ ⟨⟨"file:///t.yaml"⟩⟩
    "cfn-lint invocation failed" "cfn-lint invocation failed" rfl rfl

end CfnLsp

namespace CfnLsp

/-- C2 [counter-evidence]: the Frame Reader does not consume precisely
the bytes of one frame. On a stream whose header advertises
`Content-Length: 2`, `Reader::read` nevertheless consumes the *entire*
input up to the line terminator (36 body bytes) and returns the `exit`
notification assembled from bytes beyond the advertised frame, because
`parse` hands the whole remaining buffer to `serde_json` and never
consults the parsed Content-Length value. The headers really were parsed
as Content-Length 2 (second conjunct), and nothing of the stream is left
unconsumed (the returned remainder is empty). -/
theorem c2_reader_ignores_content_length :
    Reader.read
        ("Content-Length: 2\r\n\r\n\x7b\"jsonrpc\":\"2.0\",\"method\":\"exit\"\x7d\n").data =
      some (.ok (.notification ⟨.exit⟩), []) ∧
    Reader.headers
        ("Content-Length: 2\r\n\r\n\x7b\"jsonrpc\":\"2.0\",\"method\":\"exit\"\x7d\n").data =
      some ([.contentLength 2],
        '\r' :: '\n' :: ("\x7b\"jsonrpc\":\"2.0\",\"method\":\"exit\"\x7d\n").data) :=
  ⟨rfl, rfl⟩

/-- C4 counterexample: a frame whose body `{"id":7}` is valid JSON but no
known Message shape fails with id `Null` — not with the id `7` recovered
from the raw JSON as claimed — and a frame whose body `@@@` is not valid
JSON at all also fails with code `InvalidRequest`, not `ParseError`. -/
theorem c4_no_id_recovery_counterexample :
    Reader.parse ("Content-Length: 8\r\n\r\n\x7b\"id\":7\x7d").data =
      .error (.invalidRequest .null .invalidRequest) ∧
    RequestId.null ≠ RequestId.num 7 ∧
    Reader.parse ("Content-Length: 3\r\n\r\n@@@").data =
      .error (.invalidRequest .null .invalidRequest) ∧
    ErrorCode.invalidRequest ≠ ErrorCode.parseError :=
  ⟨rfl, by decide, rfl, by decide⟩

/-- C4 (amended): for every frame whose body fails to decode as a Message
— whether because the bytes are not valid JSON or because the JSON
matches no known Message shape — `Reader::parse` fails uniformly with
`InvalidRequest { id: Null, error_code: InvalidRequest }`: no request id
is recovered from the raw JSON and `ParseError` is never produced. -/
theorem c4_uniform_invalid_request (s : List Char) (hs : List Header)
    (rem rem₂ : List Char)
    (h₁ : Reader.headers s = some (hs, rem))
    (h₂ : Reader.endOfHeaders rem = some rem₂)
    (h₃ : decodeMessageString (String.mk rem₂) = none) :
    Reader.parse s = .error (.invalidRequest .null .invalidRequest) := by
  simp [Reader.parse, h₁, h₂, h₃]

/-- C4 witness: the amended theorem applied at the concrete
`{"id":7}` frame. -/
theorem c4_uniform_invalid_request_witness :
    Reader.parse ("Content-Length: 8\r\n\r\n\x7b\"id\":7\x7d").data =
      .error (.invalidRequest .null .invalidRequest) :=
  c4_uniform_invalid_request ("Content-Length: 8\r\n\r\n\x7b\"id\":7\x7d").data
    [.contentLength 8] ('\r' :: '\n' :: "\x7b\"id\":7\x7d".data)
    "\x7b\"id\":7\x7d".data rfl rfl rfl

end CfnLsp

namespace CfnLsp

/-- nom `take_until` at a structured input: when the pattern's first
character does not occur in the prefix, the split lands exactly at the
pattern. -/
theorem takeUntilP_first (p : Char) (ps pre suffix : List Char)
    (h : p ∉ pre) :
    takeUntilP (p :: ps) (pre ++ (p :: ps) ++ suffix) =
      some (pre, (p :: ps) ++ suffix) := by
  induction pre with
  | nil =>
    have hpre : (p :: ps).isPrefixOf ((p :: ps) ++ suffix) = true := by
      rw [List.isPrefixOf_iff_prefix]
      exact List.prefix_append _ _
    simp [takeUntilP, hpre]
  | cons c pre' ih =>
    have hpc : p ≠ c := fun he => h (he ▸ List.mem_cons_self c pre')
    have h' : p ∉ pre' := fun hm => h (List.mem_cons_of_mem c hm)
    have key := ih h'
    simp only [List.append_assoc, List.cons_append] at key
    simp [takeUntilP, hpc, key]

/-- nom `tag` on a single matching character. -/
theorem tagP_cons (c : Char) (t : List Char) : tagP [c] (c :: t) = some t := by
  simp [tagP, List.isPrefixOf]

/-- Greedy digit collection stops exactly at the first non-digit. -/
theorem takeDigits_append (ds : List Char) (c : Char) (t : List Char)
    (hds : ∀ d ∈ ds, d.isDigit = true) (hc : c.isDigit = false) :
    Json.takeDigits (ds ++ c :: t) = (ds, c :: t) := by
  induction ds with
  | nil => simp [Json.takeDigits, hc]
  | cons d ds' ih =>
    have hd : d.isDigit = true := hds d (List.mem_cons_self d ds')
    have h' : ∀ x ∈ ds', x.isDigit = true :=
      fun x hx => hds x (List.mem_cons_of_mem d hx)
    simp [Json.takeDigits, hd, ih h']

/-- nom `digit1` consumes exactly a non-empty run of digits followed by a
non-digit. -/
theorem digit1P_append (ds : List Char) (c : Char) (t : List Char)
    (hne : ds ≠ []) (hds : ∀ d ∈ ds, d.isDigit = true)
    (hc : c.isDigit = false) :
    digit1P (ds ++ c :: t) = some (ds, c :: t) := by
  cases ds with
  | nil => exact absurd rfl hne
  | cons d ds' =>
    unfold digit1P
    rw [takeDigits_append (d :: ds') c t hds hc]

/-- C8 counterexample: on cfn-lint's 1-based `path:103:12` location line,
`parser::range` emits `Position { line: 103, character: 12 }` verbatim —
not the 0-based `(102, 11)` the claim requires. -/
theorem c8_positions_not_converted :
    lintParser.range "/path/to/some/file.yaml:103:12\nremainder".data =
      some (⟨⟨103, 12⟩, ⟨103, 12⟩⟩, "remainder".data) ∧
    (⟨⟨103, 12⟩, ⟨103, 12⟩⟩ : diagnostic.Range) ≠ ⟨⟨102, 11⟩, ⟨102, 11⟩⟩ :=
  ⟨rfl, by decide⟩

/-- C8 (amended): for every location line `path:L:C` in the linter's
output, `parser::range` emits the parsed 1-based values unchanged — the
Diagnostic's position is exactly line `L`, character `C` (and start =
end); no conversion to 0-based happens anywhere on the path to the
emitted `Position`. -/
theorem c8_positions_passthrough (path ds₁ ds₂ rest : List Char)
    (hpath : ':' ∉ path) (h₁ : ds₁ ≠ []) (h₂ : ds₂ ≠ [])
    (hd₁ : ∀ c ∈ ds₁, c.isDigit = true) (hd₂ : ∀ c ∈ ds₂, c.isDigit = true)
    (hn₁ : Json.natOfDigits ds₁ < 2 ^ 32)
    (hn₂ : Json.natOfDigits ds₂ < 2 ^ 32) :
    lintParser.range (path ++ ':' :: (ds₁ ++ ':' :: (ds₂ ++ '\n' :: rest))) =
      some (⟨⟨Json.natOfDigits ds₁, Json.natOfDigits ds₂⟩,
             ⟨Json.natOfDigits ds₁, Json.natOfDigits ds₂⟩⟩, rest) := by
  have hc : (':' : Char).isDigit = false := by decide
  have hn : ('\n' : Char).isDigit = false := by decide
  have t₁ := takeUntilP_first ':' [] path (ds₁ ++ ':' :: (ds₂ ++ '\n' :: rest))
    hpath
  simp only [List.append_assoc, List.singleton_append] at t₁
  have t₂ := digit1P_append ds₁ ':' (ds₂ ++ '\n' :: rest) h₁ hd₁ hc
  have t₃ := digit1P_append ds₂ '\n' rest h₂ hd₂ hn
  simp [lintParser.range, t₁, tagP_cons, t₂, t₃, hn₁, hn₂, lineEndingP]
  exact ⟨by omega, by omega⟩

/-- C8 witness: the pass-through theorem at the concrete line
`file.yaml:103:12`. -/
theorem c8_positions_passthrough_witness :
    lintParser.range
        ("file.yaml".data ++ ':' :: (['1', '0', '3'] ++ ':' ::
          (['1', '2'] ++ '\n' :: []))) =
      some (⟨⟨103, 12⟩, ⟨103, 12⟩⟩, []) :=
  c8_positions_passthrough "file.yaml".data ['1', '0', '3'] ['1', '2'] []
    (by decide) (by decide) (by decide) (by decide) (by decide)
    (by decide) (by decide)

end CfnLsp

namespace CfnLsp

/-! Decimal-digit and frame-parsing lemmas supporting the Frame Writer
round-trip. -/

theorem digitChar_isDigit (d : Nat) (h : d < 10) : (digitChar d).isDigit = true := by
  interval_cases d <;> decide

theorem digitChar_val (d : Nat) (h : d < 10) :
    (digitChar d).toNat - 48 = d := by
  interval_cases d <;> decide

theorem natReprAux_digits (n : Nat) :
    ∀ (acc : List Char), (∀ c ∈ acc, c.isDigit = true) →
      ∀ c ∈ natReprAux n acc, c.isDigit = true := by
  induction n using Nat.strong_induction_on with
  | _ n ih =>
    intro acc hacc c hc
    rw [natReprAux] at hc
    split at hc
    · rcases List.mem_cons.mp hc with h | h
      · subst h; exact digitChar_isDigit _ (Nat.mod_lt _ (by omega))
      · exact hacc c h
    · refine ih (n / 10) (by omega) _ ?_ c hc
      intro x hx
      rcases List.mem_cons.mp hx with h | h
      · subst h; exact digitChar_isDigit _ (Nat.mod_lt _ (by omega))
      · exact hacc x h

theorem natReprAux_append (n : Nat) :
    ∀ acc : List Char, natReprAux n acc = natReprAux n [] ++ acc := by
  induction n using Nat.strong_induction_on with
  | _ n ih =>
    intro acc
    by_cases h : n < 10
    · have e1 : natReprAux n acc = digitChar (n % 10) :: acc := by
        rw [natReprAux]; simp [h]
      have e2 : natReprAux n [] = [digitChar (n % 10)] := by
        rw [natReprAux]; simp [h]
      rw [e1, e2]; simp
    · have e1 : natReprAux n acc =
          natReprAux (n / 10) (digitChar (n % 10) :: acc) := by
        rw [natReprAux]; simp [h]
      have e2 : natReprAux n [] =
          natReprAux (n / 10) [digitChar (n % 10)] := by
        rw [natReprAux]; simp [h]
      rw [e1, e2, ih (n / 10) (by omega) (digitChar (n % 10) :: acc),
        ih (n / 10) (by omega) [digitChar (n % 10)]]
      simp

theorem natReprAux_ne_nil (n : Nat) : ∀ acc : List Char,
    natReprAux n acc ≠ [] := by
  induction n using Nat.strong_induction_on with
  | _ n ih =>
    intro acc
    rw [natReprAux]
    split
    · simp
    · exact ih (n / 10) (by omega) _

theorem natOfDigits_foldl (ys : List Char) :
    ∀ a : Nat, ys.foldl (fun acc c => acc * 10 + (c.toNat - '0'.toNat)) a =
      a * 10 ^ ys.length + Json.natOfDigits ys := by
  induction ys with
  | nil => intro a; simp [Json.natOfDigits]
  | cons c ys ih =>
    intro a
    simp only [List.foldl_cons, List.length_cons, Json.natOfDigits]
    rw [ih, ih (0 * 10 + (c.toNat - '0'.toNat))]
    ring

theorem natOfDigits_append (xs ys : List Char) :
    Json.natOfDigits (xs ++ ys) =
      Json.natOfDigits xs * 10 ^ ys.length + Json.natOfDigits ys := by
  unfold Json.natOfDigits
  rw [List.foldl_append]
  exact natOfDigits_foldl ys _

theorem natOfDigits_natReprAux (n : Nat) :
    Json.natOfDigits (natReprAux n []) = n := by
  induction n using Nat.strong_induction_on with
  | _ n ih =>
    by_cases h : n < 10
    · have e : natReprAux n [] = [digitChar (n % 10)] := by
        rw [natReprAux]; simp [h]
      rw [e]
      simp [Json.natOfDigits]
      rw [digitChar_val (n % 10) (Nat.mod_lt _ (by omega))]
      omega
    · have e : natReprAux n [] = natReprAux (n / 10) [digitChar (n % 10)] := by
        rw [natReprAux]; simp [h]
      rw [e, natReprAux_append, natOfDigits_append, ih (n / 10) (by omega)]
      have e2 : Json.natOfDigits [digitChar (n % 10)] = n % 10 := by
        simp [Json.natOfDigits]
        rw [digitChar_val (n % 10) (Nat.mod_lt _ (by omega))]
      rw [e2]
      simp
      omega

theorem tagP_append (pat rest : List Char) : tagP pat (pat ++ rest) = some rest := by
  simp [tagP, List.isPrefixOf_iff_prefix, List.prefix_append, List.drop_left]

theorem endOfHeaders_cons (body : List Char) (h : body ≠ []) :
    Reader.endOfHeaders ('\r' :: '\n' :: body) = some body := by
  have hcrlf : crlfP ('\r' :: '\n' :: body) = some body :=
    tagP_append ['\r', '\n'] body
  simp [Reader.endOfHeaders, hcrlf, h]

theorem contentLengthHeader_frame (ds rest : List Char) (hne : ds ≠ [])
    (hds : ∀ c ∈ ds, c.isDigit = true)
    (hlt : Json.natOfDigits ds < 2 ^ 32) :
    Reader.contentLengthHeader
        ("Content-Length: ".data ++ (ds ++ ('\r' :: '\n' :: rest))) =
      some (.contentLength (Json.natOfDigits ds), rest) := by
  have h₀ : tagP "Content-Length: ".data
      ("Content-Length: ".data ++ (ds ++ ('\r' :: '\n' :: rest))) =
      some (ds ++ ('\r' :: '\n' :: rest)) := tagP_append _ _
  have hcrlf : crlfP ('\r' :: '\n' :: rest) = some rest :=
    tagP_append ['\r', '\n'] rest
  simp only [Reader.contentLengthHeader, h₀, Bind.bind, Option.bind,
    digit1P_append ds '\r' ('\n' :: rest) hne hds (by decide), hcrlf]
  simp
  omega

theorem contentTypeHeader_frame (ct cs rest : List Char)
    (hct : ';' ∉ ct) (hne : ct ≠ []) (hcs : '\r' ∉ cs) :
    Reader.contentTypeHeader
        ("Content-Type: ".data ++ (ct ++ (';' :: ' ' ::
          ("charset=".data ++ (cs ++ ('\r' :: '\n' :: rest)))))) =
      some (.contentType (String.mk ct) (String.mk cs), rest) := by
  have h₀ : tagP "Content-Type: ".data
      ("Content-Type: ".data ++ (ct ++ (';' :: ' ' ::
        ("charset=".data ++ (cs ++ ('\r' :: '\n' :: rest)))))) =
      some (ct ++ (';' :: ' ' ::
        ("charset=".data ++ (cs ++ ('\r' :: '\n' :: rest))))) := tagP_append _ _
  have h₁ := takeUntilP_first ';' [] ct
    (' ' :: ("charset=".data ++ (cs ++ ('\r' :: '\n' :: rest)))) hct
  simp only [List.append_assoc, List.singleton_append] at h₁
  have h₂ : tagP "; ".data (';' :: ' ' ::
      ("charset=".data ++ (cs ++ ('\r' :: '\n' :: rest)))) =
      some ("charset=".data ++ (cs ++ ('\r' :: '\n' :: rest))) :=
    tagP_append "; ".data _
  have h₂b : tagP "charset=".data
      ("charset=".data ++ (cs ++ ('\r' :: '\n' :: rest))) =
      some (cs ++ ('\r' :: '\n' :: rest)) := tagP_append _ _
  have h₃ := takeUntilP_first '\r' ['\n'] cs rest hcs
  simp only [List.append_assoc, List.cons_append, List.nil_append] at h₃
  have hcrlf : crlfP ('\r' :: '\n' :: rest) = some rest :=
    tagP_append ['\r', '\n'] rest
  cases ct with
  | nil => exact absurd rfl hne
  | cons c₀ ct' =>
    simp only [Reader.contentTypeHeader, h₀, Bind.bind, Option.bind,
      takeUntil1P, h₁, h₂, h₂b, h₃, hcrlf]



theorem headers_frame (ds ct cs body : List Char)
    (hne : ds ≠ []) (hds : ∀ c ∈ ds, c.isDigit = true)
    (hlt : Json.natOfDigits ds < 2 ^ 32)
    (hct : ';' ∉ ct) (hctne : ct ≠ []) (hcs : '\r' ∉ cs) :
    Reader.headers
        ("Content-Length: ".data ++ (ds ++ ('\r' :: '\n' ::
          ("Content-Type: ".data ++ (ct ++ (';' :: ' ' ::
            ("charset=".data ++ (cs ++ ('\r' :: '\n' ::
              ('\r' :: '\n' :: body)))))))))) =
      some ([.contentLength (Json.natOfDigits ds),
             .contentType (String.mk ct) (String.mk cs)],
        '\r' :: '\n' :: body) := by
  have h₁ := contentLengthHeader_frame ds
    ("Content-Type: ".data ++ (ct ++ (';' :: ' ' ::
      ("charset=".data ++ (cs ++ ('\r' :: '\n' :: ('\r' :: '\n' :: body)))))))
    hne hds hlt
  have h₂ := contentTypeHeader_frame ct cs ('\r' :: '\n' :: body) hct hctne hcs
  simp only [Reader.headers, h₁, h₂]

theorem serializeResponse_data_ne_nil (r : Response) :
    (serializeResponse r).data ≠ [] := by
  cases r <;>
    simp [serializeResponse, jsonOfResponse, Json.render, String.data_append]

/-- C9 (amended): for every Response, `Writer::write` serialises it to
JSON and performs exactly four channel writes — a Content-Length header
whose value is the serialised body's exact length, the fixed
`Content-Type: application/vscode-jsonrpc; charset=utf-8` header, the
blank line, then the body — and never flushes the channel. Round-trip:
feeding the produced frame to the Frame Reader's header parser recovers a
Content-Length equal to the body's length and leaves exactly the body
after the header terminator. (Serialisation and I/O failures are *not*
distinct kinds in the source: both are the single `WriteError` struct,
distinguished only by message text.) -/
theorem c9_frame_structure (r : Response)
    (h : (serializeResponse r).length < 2 ^ 32) :
    Writer.write r =
      [.write (Writer.contentLengthBytes (serializeResponse r).length),
       .write contentTypeHeaderBytes, .write "\r\n",
       .write (serializeResponse r)] ∧
    ChannelOp.flush ∉ Writer.write r ∧
    Reader.headers (Writer.writtenBytes (Writer.write r)).data =
      some ([.contentLength (serializeResponse r).length,
             .contentType "application/vscode-jsonrpc" "utf-8"],
            '\r' :: '\n' :: (serializeResponse r).data) ∧
    Reader.endOfHeaders ('\r' :: '\n' :: (serializeResponse r).data) =
      some (serializeResponse r).data := by
  refine ⟨rfl, ?_, ?_, endOfHeaders_cons _ (serializeResponse_data_ne_nil r)⟩
  · simp [Writer.write, Writer.writeHeaders]
  · have hdata : (Writer.writtenBytes (Writer.write r)).data =
        "Content-Length: ".data ++ (natReprAux (serializeResponse r).length [] ++
          ('\r' :: '\n' ::
            ("Content-Type: ".data ++ ("application/vscode-jsonrpc".data ++
              (';' :: ' ' :: ("charset=".data ++ ("utf-8".data ++
                ('\r' :: '\n' ::
                  ('\r' :: '\n' :: (serializeResponse r).data))))))))) := by
      have e₀ : ("" : String).data = [] := rfl
      have e₁ : (natRepr (serializeResponse r).length).data =
          natReprAux (serializeResponse r).length [] := rfl
      have e₂ : ("\r\n" : String).data = ['\r', '\n'] := rfl
      have e₃ : contentTypeHeaderBytes.data =
          "Content-Type: ".data ++ ("application/vscode-jsonrpc".data ++
            (';' :: ' ' :: ("charset=".data ++
              ("utf-8".data ++ ['\r', '\n'])))) := rfl
      simp only [Writer.writtenBytes, Writer.write, Writer.writeHeaders,
        Writer.contentLengthBytes, List.foldl_cons, List.foldl_nil,
        String.data_append, e₀, e₁, e₂, e₃, List.append_assoc,
        List.cons_append, List.nil_append]
    rw [hdata]
    have hrt : Json.natOfDigits (natReprAux (serializeResponse r).length []) =
        (serializeResponse r).length := natOfDigits_natReprAux _
    have hfr := headers_frame (natReprAux (serializeResponse r).length [])
      "application/vscode-jsonrpc".data "utf-8".data (serializeResponse r).data
      (natReprAux_ne_nil _ []) (natReprAux_digits _ [] (by simp))
      (by rw [hrt]; exact h) (by decide) (by decide) (by decide)
    rw [hrt] at hfr
    exact hfr

/-- C9 counterexample: the Frame Writer never flushes the channel — the
operation trace of `Writer::write` for a concrete response contains no
flush, refuting "then flushes the channel". -/
theorem c9_never_flushes :
    ChannelOp.flush ∉ Writer.write (.success ⟨.null, .num 1⟩) := by
  simp [Writer.write, Writer.writeHeaders]

/-- C9 witness: the frame-structure theorem at the concrete empty batch
response (serialised body `[]`). -/
theorem c9_frame_structure_witness :
    Writer.write (.batch []) =
      [.write (Writer.contentLengthBytes (serializeResponse (.batch [])).length),
       .write contentTypeHeaderBytes, .write "\r\n",
       .write (serializeResponse (.batch []))] ∧
    ChannelOp.flush ∉ Writer.write (.batch []) ∧
    Reader.headers (Writer.writtenBytes (Writer.write (.batch []))).data =
      some ([.contentLength (serializeResponse (.batch [])).length,
             .contentType "application/vscode-jsonrpc" "utf-8"],
            '\r' :: '\n' :: (serializeResponse (.batch [])).data) ∧
    Reader.endOfHeaders ('\r' :: '\n' :: (serializeResponse (.batch [])).data) =
      some (serializeResponse (.batch [])).data := by
  apply c9_frame_structure
  have e : serializeResponse (Response.batch []) = "[]" := by
    simp [serializeResponse, jsonOfResponse, jsonOfResponseList, Json.render,
      Json.renderList]
  rw [e]
  decide

end CfnLsp
